import Mathlib

/-!
Verification development for the cen64 VR4300 pipeline core
(`vr4300/pipeline.c`).

The C source is shallowly embedded: machine integers are `Nat` with
explicit `% 2^32` / `% 2^64` where C truncation or wraparound applies,
signed 32/64-bit arithmetic shifts go through `Int`, and the mutable
`struct vr4300` becomes an explicit state record threaded through the
stage functions.  Collaborators that live outside `pipeline.c` (the
instruction decoder, segment table, TLB, cache probes, the per-opcode
dispatch table and the fault raisers of `fault.c`) are parameters of an
`Env` record, exactly as the spec treats them (external collaborators
whose contracts alone are pinned down).
-/

namespace CEN64

/-- Two to the 32nd, the modulus of C `uint32_t` arithmetic. -/
def U32 : Nat := 2 ^ 32

/-- Two to the 64th, the modulus of C `uint64_t` arithmetic. -/
def U64 : Nat := 2 ^ 64

/-- Bitwise complement at 32 bits: C `~x` on a `uint32_t` value. -/
def not32 (x : Nat) : Nat := x ^^^ (U32 - 1)

/-- Bitwise complement at 64 bits: C `~x` on a `uint64_t` value. -/
def not64 (x : Nat) : Nat := x ^^^ (U64 - 1)

/-- C `uint64_t` subtraction `a - b` (wraparound), for `a b < 2^64`. -/
def sub64 (a b : Nat) : Nat := (a + (U64 - b % U64)) % U64

/-- Reinterpretation of a 32-bit pattern as a signed `int32_t` value. -/
def toSigned32 (x : Nat) : Int := if x < 2 ^ 31 then (x : Int) else (x : Int) - (U32 : Int)

/-- Reinterpretation of a 64-bit pattern as a signed `int64_t` value. -/
def toSigned64 (x : Nat) : Int := if x < 2 ^ 63 then (x : Int) else (x : Int) - (U64 : Int)

/-- C arithmetic right shift of a signed value (gcc/clang semantics:
floor division by the power of two). -/
def sar (i : Int) (k : Nat) : Int := Int.fdiv i (2 ^ k)

/-- Conversion of a signed 64-bit value to its `uint64_t` bit pattern
(two's complement), as happens when C masks an `int64_t` with a
`uint64_t`. -/
def toU64 (i : Int) : Nat := (i % (U64 : Int)).toNat

/-- Pointwise register-file update, modelling `regs[i] = v`. -/
def updReg (f : Nat → Nat) (i v : Nat) : Nat → Nat :=
  fun j => if j = i then v else f j

/-! Register indices (`vr4300/cpu.h`, a collaborator header not under
`src/`; the numeric values are immaterial to every claim, only their
distinctness is used, and the code itself only names them
symbolically).  GPRs occupy indices 0–31, with index 0 the
architectural zero register; CP0 registers follow at base 32 in MIPS
coprocessor-0 numbering; CP1 registers follow those; the reserved
pipeline-cycle-type slot lives at an index that is never a real MIPS
register. -/

/-- Architectural zero register index. -/
def VR4300_REGISTER_R0 : Nat := 0

/-- CP0 Count register slot (CP0 register 9). -/
def VR4300_CP0_REGISTER_COUNT : Nat := 32 + 9

/-- CP0 EntryHi register slot (CP0 register 10). -/
def VR4300_CP0_REGISTER_ENTRYHI : Nat := 32 + 10

/-- CP0 Compare register slot (CP0 register 11). -/
def VR4300_CP0_REGISTER_COMPARE : Nat := 32 + 11

/-- CP0 Status register slot (CP0 register 12). -/
def VR4300_CP0_REGISTER_STATUS : Nat := 32 + 12

/-- CP0 Cause register slot (CP0 register 13). -/
def VR4300_CP0_REGISTER_CAUSE : Nat := 32 + 13

/-- First CP1 (coprocessor 1) register slot. -/
def VR4300_REGISTER_CP1_0 : Nat := 64

/-- Reserved register-file slot holding the pipeline cycle type; per
the spec it is an index that is never a real MIPS register, so normal
register traffic leaves it alone. -/
def PIPELINE_CYCLE_TYPE : Nat := 100

/-- Cold reset signal bit in `vr4300->signals` (`cpu.h` collaborator;
exact bit position immaterial, the code only tests the mask). -/
def VR4300_SIGNAL_COLDRESET : Nat := 1

/-! Opcode info flags (`decoder.h` collaborator).  Bits 0 and 1 are
fixed by the EX-stage lookup-table indexing in `pipeline.c` itself
(`flags & 0x1` selects a CP1 rs, `flags & 0x2` a CP1 rt); the
remaining flags are distinct higher bits whose positions are
immaterial. -/

/-- Opcode flag: instruction needs (reads) rs. -/
def OPCODE_INFO_NEEDRS : Nat := 4

/-- Opcode flag: instruction needs (reads) rt. -/
def OPCODE_INFO_NEEDRT : Nat := 8

/-- Opcode flag: instruction is a branch. -/
def OPCODE_INFO_BRANCH : Nat := 16

/-- Fault tag carried in a common latch; `0` is `VR4300_FAULT_NONE`,
the enumerated kinds of `fault.h` are the nonzero values. -/
def VR4300_FAULT_NONE : Nat := 0

/-- Bus request type `VR4300_BUS_REQUEST_NONE`. -/
def busRequestNone : Nat := 0

/-- Bus request type `VR4300_BUS_REQUEST_READ`. -/
def busRequestRead : Nat := 1

/-- Bus request type `VR4300_BUS_REQUEST_WRITE`. -/
def busRequestWrite : Nat := 2

/-- Memory segment descriptor (`segment.h` collaborator): start,
length, offset subtracted from a virtual address to form the physical
address baseline, and the mapped/cached attributes. -/
structure Segment where
  start : Nat
  length : Nat
  offset : Nat
  mapped : Bool
  cached : Bool
deriving Repr, DecidableEq

/-- Decoded opcode record: operation id plus info flag bits. -/
structure Opcode where
  id : Nat
  flags : Nat
deriving Repr, DecidableEq

/-- Common latch payload (`vr4300_latch` prefix of every inter-stage
latch): virtual PC, fault tag, and the cause-data word whose high bit
records the branch-delay-slot property. -/
structure Common where
  pc : Nat
  fault : Nat
  cause_data : Nat
deriving Repr, DecidableEq

/-- Bus request record carried in the EX/DC latch. -/
structure BusRequest where
  vaddr : Nat
  data : Nat
  dqm : Nat
  postshift : Nat
  reqType : Nat
  paddr : Nat
  size : Nat
  two_words : Bool
deriving Repr, DecidableEq

/-- IC/RF latch. -/
structure IcrfLatch where
  segment : Segment
  pc : Nat
  common : Common
deriving Repr, DecidableEq

/-- RF/EX latch. -/
structure RfexLatch where
  common : Common
  paddr : Nat
  opcode : Opcode
  iw : Nat
  iw_mask : Nat
deriving Repr, DecidableEq

/-- EX/DC latch. -/
structure ExdcLatch where
  common : Common
  result : Nat
  dest : Nat
  request : BusRequest
  segment : Segment
deriving Repr, DecidableEq

/-- DC/WB latch. -/
structure DcwbLatch where
  common : Common
  result : Nat
  dest : Nat
deriving Repr, DecidableEq

/-- Pipeline object: the four latches, the stall count, the
fault-present flag and the exception history counter. -/
structure Pipeline where
  icrf_latch : IcrfLatch
  rfex_latch : RfexLatch
  exdc_latch : ExdcLatch
  dcwb_latch : DcwbLatch
  exception_history : Nat
  cycles_to_stall : Nat
  fault_present : Bool
deriving Repr, DecidableEq

/-- Data cache line: a word-granular view of the 16-byte line buffer
(`data o` is the aligned 32-bit word `memcpy`'d at byte offset `o`,
`o` a multiple of 4; every access in `pipeline.c` is so aligned after
its `& 0xC` / `& 0x8` masking), plus the dirty flag. -/
structure CacheLine where
  data : Nat → Nat
  dirty : Bool

/-- State of the VR4300 as touched by `pipeline.c`: register file
(GPR + CP0 + CP1 + the reserved cycle-type slot), pipeline object,
global cycle counter, external signals, and the data cache (a map from
the line identities handed out by the probe collaborator to line
contents).  The `crashed` flag models `abort()` / `assert(0)`: C paths
that terminate the process set it. -/
structure VR4300 where
  regs : Nat → Nat
  pipeline : Pipeline
  cycles : Nat
  signals : Nat
  dcache : Nat → CacheLine
  crashed : Bool

/-- External collaborators of `pipeline.c`, exactly the downward
interfaces of spec §6: decoder, segment table, TLB, cache probes, the
opcode dispatch table, and the fault raisers of `fault.c`.  The cache
probes are functions of the probe keys alone because `pipeline.c`
never mutates the tags the probes inspect (only line contents, via the
returned line). -/
structure Env where
  decode : Nat → Opcode
  get_segment : Nat → Nat → Option Segment
  default_segment : Segment
  tlb_probe : Nat → Nat → Option Nat
  page_mask : Nat → Nat
  pfn : Nat → Nat → Nat
  icache_probe : Nat → Nat → Option (Nat → Nat)
  dcache_probe : Nat → Nat → Option Nat
  exec : Nat → VR4300 → Nat → Nat → Nat → VR4300 × Bool
  VR4300_RST : VR4300 → VR4300
  VR4300_INTR : VR4300 → VR4300
  VR4300_LDI : VR4300 → VR4300
  VR4300_IADE : VR4300 → VR4300
  VR4300_ICB : VR4300 → VR4300
  VR4300_DADE : VR4300 → VR4300
  VR4300_DCM : VR4300 → VR4300
  VR4300_DCB : VR4300 → VR4300

/-- Writeback stage (`vr4300_wb_stage`): write the DC/WB result to the
destination slot, then re-zero register zero.  Always returns 0 (no
abort). -/
def vr4300_wb_stage (s : VR4300) : VR4300 × Bool :=
  ({ s with regs := (updReg
      (updReg s.regs s.pipeline.dcwb_latch.dest s.pipeline.dcwb_latch.result)
      VR4300_REGISTER_R0 0) }, false)

/-! The EX stage (`vr4300_ex_stage`).  The register-select lookup
tables and the derived quantities are split into named definitions so
that the theorems can speak about the load-use-interlock condition and
the forwarding register view; each follows the C line by line. -/

/-- EX-stage lookup table `rs_select_lut` (source index / shift pairs). -/
def rs_select_lut : Nat → Nat
  | 0 => 0
  | 1 => VR4300_REGISTER_CP1_0
  | 2 => 21
  | 3 => 11
  | _ => 0

/-- EX-stage lookup table `rt_select_lut` (the first two entries are
padding, the third is the CP1 base index). -/
def rt_select_lut : Nat → Nat
  | 2 => VR4300_REGISTER_CP1_0
  | _ => 0

/-- Opcode flags as seen by EX: the NEEDRS/NEEDRT bits are masked away
unless the prior instruction's bus request (still latched in EX/DC) is
a read. -/
def ex_flags (s : VR4300) : Nat :=
  let flags := s.pipeline.rfex_latch.opcode.flags
  if s.pipeline.exdc_latch.request.reqType ≠ busRequestRead then
    flags &&& not32 (OPCODE_INFO_NEEDRS ||| OPCODE_INFO_NEEDRT)
  else flags

/-- The FR status bit selector used by EX: `(status >> 26 & 0x1) ^ 1`. -/
def ex_fr (s : VR4300) : Nat :=
  (((s.regs VR4300_CP0_REGISTER_STATUS % U32) >>> 26) &&& 1) ^^^ 1

/-- The rs register index computed by EX. -/
def ex_rs (s : VR4300) : Nat :=
  let flags := ex_flags s
  let rslutidx := flags &&& 1
  let rs := ((s.pipeline.rfex_latch.iw >>> rs_select_lut (2 + rslutidx)) &&& 0x1F)
    + rs_select_lut rslutidx
  rs &&& not32 (rslutidx &&& ex_fr s)

/-- The rt register index computed by EX. -/
def ex_rt (s : VR4300) : Nat :=
  let flags := ex_flags s
  let rtlutidx := flags &&& 2
  let rt := ((s.pipeline.rfex_latch.iw >>> 16) &&& 0x1F) + rt_select_lut rtlutidx
  rt &&& not32 ((rtlutidx >>> 1) &&& ex_fr s)

/-- Load-use interlock condition checked by EX: the prior instruction's
destination (DC/WB latch) equals a source register this opcode needs. -/
def exLdiCond (s : VR4300) : Bool :=
  (s.pipeline.dcwb_latch.dest == ex_rs s && ex_flags s &&& OPCODE_INFO_NEEDRS != 0) ||
  (s.pipeline.dcwb_latch.dest == ex_rt s && ex_flags s &&& OPCODE_INFO_NEEDRT != 0)

/-- Register-file view EX reads its operands from: the prior result is
temporarily planted into its destination slot and register zero is
pinned to zero (the write–read–restore forwarding trick, mid-state). -/
def exPinnedRegs (s : VR4300) : Nat → Nat :=
  updReg (updReg s.regs s.pipeline.dcwb_latch.dest s.pipeline.dcwb_latch.result)
    VR4300_REGISTER_R0 0

/-- Execution stage (`vr4300_ex_stage`): copy the common latch
forward; on a load-use interlock raise LDI and abort; otherwise read
rs/rt through the forwarding view, restore the register file,
initialize the EX/DC destination and request type, and dispatch to the
per-opcode function. -/
def vr4300_ex_stage (env : Env) (s : VR4300) : VR4300 × Bool :=
  let s1 : VR4300 := { s with pipeline.exdc_latch.common := s.pipeline.rfex_latch.common }
  if exLdiCond s then
    (env.VR4300_LDI s1, true)
  else
    let dest := s.pipeline.dcwb_latch.dest
    let temp := s.regs dest
    let rs_reg := exPinnedRegs s (ex_rs s)
    let rt_reg := exPinnedRegs s (ex_rt s)
    let s2 : VR4300 :=
      { s1 with
        regs := updReg (exPinnedRegs s) dest temp
        pipeline.exdc_latch.dest := VR4300_REGISTER_R0
        pipeline.exdc_latch.request.reqType := busRequestNone }
    env.exec s.pipeline.rfex_latch.opcode.id s2 s.pipeline.rfex_latch.iw rs_reg rt_reg

/-- Instruction cache stage (`vr4300_ic_stage`): finish decoding the
instruction in RF (mask the raw word, decode, reset the mask), stamp
the fresh IC/RF common latch (PC, `fault = None`, branch-delay cause
data from the opcode just decoded), re-look-up the segment if the PC
left the cached descriptor's window (raising IADE on failure), and
advance the PC by 4. -/
def vr4300_ic_stage (env : Env) (s : VR4300) : VR4300 × Bool :=
  let pc := s.pipeline.icrf_latch.pc
  let segment := s.pipeline.icrf_latch.segment
  let decode_iw := s.pipeline.rfex_latch.iw &&& s.pipeline.rfex_latch.iw_mask
  let opcode := env.decode decode_iw
  let s1 : VR4300 :=
    { s with
      pipeline.rfex_latch.iw := decode_iw
      pipeline.rfex_latch.opcode := opcode
      pipeline.rfex_latch.iw_mask := U32 - 1
      pipeline.icrf_latch.common :=
        { pc := pc
          fault := VR4300_FAULT_NONE
          cause_data := if opcode.flags &&& OPCODE_INFO_BRANCH ≠ 0
            then 0x80000000 else 0 } }
  if sub64 pc segment.start ≥ segment.length then
    match env.get_segment pc (s.regs VR4300_CP0_REGISTER_STATUS % U32) with
    | none => (env.VR4300_IADE s1, true)
    | some seg2 =>
      ({ s1 with
          pipeline.icrf_latch.segment := seg2
          pipeline.icrf_latch.pc := (pc + 4) % U64 }, false)
  else
    ({ s1 with pipeline.icrf_latch.pc := (pc + 4) % U64 }, false)

/-- Physical address produced by the mapped-segment TLB translation of
the RF and DC stages; `none` models the C `abort()` on a TLB miss in a
mapped region (an unrecoverable internal invariant violation). -/
def tlbTranslate (env : Env) (s : VR4300) (vaddr : Nat) : Option Nat :=
  match env.tlb_probe vaddr (s.regs VR4300_CP0_REGISTER_ENTRYHI &&& 0xFF) with
  | some index =>
    let page_mask := env.page_mask index
    let select := if ((page_mask + 1) % U32) &&& vaddr = 0 then 0 else 1
    some ((env.pfn index select ||| (vaddr &&& page_mask)) % U32)
  | none => none

/-- Register fetch stage (`vr4300_rf_stage`): copy the common latch
forward, translate the PC (segment offset subtraction, or TLB probe in
a mapped segment — a miss there is the C `abort()`), and probe the
instruction cache; a miss or an uncached segment records the physical
address and raises the ICB stall, a hit copies the aligned word of the
line into the RF/EX instruction word. -/
def vr4300_rf_stage (env : Env) (s : VR4300) : VR4300 × Bool :=
  let segment := s.pipeline.icrf_latch.segment
  let vaddr := s.pipeline.icrf_latch.common.pc
  let s1 : VR4300 := { s with pipeline.rfex_latch.common := s.pipeline.icrf_latch.common }
  let paddr0 := sub64 vaddr segment.offset % U32
  let paddrOpt := if segment.mapped then tlbTranslate env s1 vaddr else some paddr0
  match paddrOpt with
  | none => ({ s1 with crashed := true }, true)
  | some paddr =>
    if segment.cached = false then
      (env.VR4300_ICB { s1 with pipeline.rfex_latch.paddr := paddr }, true)
    else
      match env.icache_probe s.pipeline.icrf_latch.common.pc paddr with
      | none => (env.VR4300_ICB { s1 with pipeline.rfex_latch.paddr := paddr }, true)
      | some line =>
        ({ s1 with pipeline.rfex_latch.iw := line (paddr &&& 0x1C) }, false)

/-- Latch copy performed at the top of the DC stage: common payload,
preliminary result and destination flow from EX/DC into DC/WB. -/
def dcCopy (s : VR4300) : VR4300 :=
  { s with
    pipeline.dcwb_latch.common := s.pipeline.exdc_latch.common
    pipeline.dcwb_latch.result := s.pipeline.exdc_latch.result
    pipeline.dcwb_latch.dest := s.pipeline.exdc_latch.dest }

/-- Masked-and-enabled pending interrupt condition shared by the DC
stage and the busy-wait handler: bits set in `Cause & Status & 0xFF00`,
global IE bit `Status & 1` set, EXL/ERL bits `Status & 6` both clear
(all on the 32-bit truncations the C reads into locals). -/
def interruptPending (s : VR4300) : Bool :=
  let status := s.regs VR4300_CP0_REGISTER_STATUS % U32
  let cause := s.regs VR4300_CP0_REGISTER_CAUSE % U32
  (cause &&& status &&& 0xFF00 != 0) && (status &&& 1 != 0) && (status &&& 6 == 0)

/-- Data value assembled by the DC-stage read path (`(sdata & dqm) <<
postshift`, as a 64-bit pattern): single-word reads extract and
sign-extend from one aligned word of the line, two-word reads span the
two words at the 8-byte-aligned offset, high word first. -/
def dcReadData (line : Nat → Nat) (req : BusRequest) (paddr : Nat) : Nat :=
  let sdata : Int :=
    if req.two_words = false then
      let rshiftamt := (4 - req.size) <<< 3
      let lshiftamt := (paddr &&& 0x3) <<< 3
      let word := line (paddr &&& 0xC)
      sar (toSigned32 ((word <<< lshiftamt) % U32)) rshiftamt
    else
      let rshiftamt := (8 - req.size) <<< 3
      let lshiftamt := (paddr &&& 0x7) <<< 3
      let hiword := line (paddr &&& 0x8)
      let loword := line ((paddr &&& 0x8) + 4)
      sar (toSigned64 ((((hiword <<< 32) ||| loword) <<< lshiftamt) % U64)) rshiftamt
  ((toU64 sdata &&& req.dqm) <<< req.postshift) % U64

/-- Line contents after the DC-stage write path: sizes above 4 bytes
merge a half-swapped 8-byte value under the don't-care mask at the
8-byte-aligned offset (little-endian host `memcpy`: low half at the
lower word), smaller sizes merge a 4-byte value at the 4-byte-aligned
offset. -/
def dcWriteLine (line : Nat → Nat) (req : BusRequest) (paddr : Nat) : Nat → Nat :=
  if req.size > 4 then
    let p := paddr &&& 0x8
    let data := req.data % U64
    let dqm := req.dqm % U64
    let dword := line p ||| (line (p + 4) <<< 32)
    let dword2 := (dword &&& not64 dqm) ||| ((((data <<< 32) % U64) ||| (data >>> 32)) &&& dqm)
    fun o => if o = p then dword2 % U32 else if o = p + 4 then dword2 >>> 32 else line o
  else
    let p := paddr &&& 0xC
    let data := req.data % U32
    let dqm := req.dqm % U32
    let word := line p
    let word2 := (word &&& not32 dqm) ||| (data &&& dqm)
    fun o => if o = p then word2 else line o

/-- Cache access portion of the DC stage, after segment resolution,
translation and a successful data cache probe (`idx` is the probed
line, `paddr` the translated physical address).  Reads OR the
extracted datum into the DC/WB result; writes merge into the line and
mark it dirty (`vr4300_dcache_set_dirty`); any other request type is
the C `assert(0)`. -/
def dc_access (s2 : VR4300) (idx paddr : Nat) : VR4300 × Bool :=
  let req := s2.pipeline.exdc_latch.request
  let line := s2.dcache idx
  if req.reqType = busRequestRead then
    ({ s2 with pipeline.dcwb_latch.result :=
        s2.pipeline.dcwb_latch.result ||| dcReadData line.data req paddr }, false)
  else if req.reqType = busRequestWrite then
    ({ s2 with dcache := fun j => if j = idx then
        { data := dcWriteLine line.data req paddr, dirty := true } else s2.dcache j }, false)
  else
    ({ s2 with crashed := true }, false)

/-- Translation-and-probe portion of the DC memory path, entered with
the (possibly re-looked-up) segment: compute the physical address
(TLB probe in mapped segments; a miss there is the C `abort()`), then
probe the data cache, raising the DCM stall (after recording the
physical address in the request) on an uncached segment or a miss. -/
def dc_mem_translated (env : Env) (s2 : VR4300) (segment : Segment) : VR4300 × Bool :=
  let vaddr := s2.pipeline.exdc_latch.request.vaddr
  let paddrOpt := if segment.mapped then tlbTranslate env s2 vaddr
    else some (sub64 vaddr segment.offset % U32)
  match paddrOpt with
  | none => ({ s2 with crashed := true }, true)
  | some paddr =>
    if segment.cached = false then
      (env.VR4300_DCM { s2 with pipeline.exdc_latch.request.paddr := paddr }, true)
    else
      match env.dcache_probe vaddr paddr with
      | none => (env.VR4300_DCM { s2 with pipeline.exdc_latch.request.paddr := paddr }, true)
      | some idx => dc_access s2 idx paddr

/-- Memory path of the DC stage (the body of the `request.type !=
NONE` block): re-look-up the segment if the effective address left the
cached descriptor's window, raising DADE when no segment covers it. -/
def dc_mem (env : Env) (s1 : VR4300) : VR4300 × Bool :=
  let vaddr := s1.pipeline.exdc_latch.request.vaddr
  let segment := s1.pipeline.exdc_latch.segment
  if sub64 vaddr segment.start ≥ segment.length then
    match env.get_segment vaddr (s1.regs VR4300_CP0_REGISTER_STATUS % U32) with
    | none => (env.VR4300_DADE s1, true)
    | some seg =>
      dc_mem_translated env { s1 with pipeline.exdc_latch.segment := seg } seg
  else dc_mem_translated env s1 segment

/-- Continuation of the DC stage after the two exception checks: run
the memory path when a bus request is pending, otherwise complete. -/
def dc_after_exceptions (env : Env) (s1 : VR4300) : VR4300 × Bool :=
  if s1.pipeline.exdc_latch.request.reqType ≠ busRequestNone then dc_mem env s1
  else (s1, false)

/-- Data cache stage (`vr4300_dc_stage`): copy the latch forward, then
check exception precedence in order — cold reset first, then the
masked pending interrupt — and only then do memory work. -/
def vr4300_dc_stage (env : Env) (s : VR4300) : VR4300 × Bool :=
  let s1 := dcCopy s
  if s.signals &&& VR4300_SIGNAL_COLDRESET ≠ 0 then (env.VR4300_RST s1, true)
  else if interruptPending s then (env.VR4300_INTR s1, true)
  else dc_after_exceptions env s1

/-- Slow-path entry point starting at IC (`vr4300_cycle_slow_ic`): run
the IC stage; when it completes, reset the pipeline-cycle-type slot so
the driver can leave slow-path dispatch. -/
def vr4300_cycle_slow_ic (env : Env) (s : VR4300) : VR4300 :=
  let p := vr4300_ic_stage env s
  if p.2 then p.1
  else { p.1 with regs := updReg p.1.regs PIPELINE_CYCLE_TYPE 0 }

/-- Slow-path entry point starting at RF (`vr4300_cycle_slow_rf`): if
the upstream IC/RF latch carries no fault run the RF stage (stopping on
abort), otherwise copy the faulted common latch forward into RF/EX and
skip the stage's work; then continue at IC. -/
def vr4300_cycle_slow_rf (env : Env) (s : VR4300) : VR4300 :=
  if s.pipeline.icrf_latch.common.fault = VR4300_FAULT_NONE then
    let p := vr4300_rf_stage env s
    if p.2 then p.1 else vr4300_cycle_slow_ic env p.1
  else
    vr4300_cycle_slow_ic env
      { s with pipeline.rfex_latch.common := s.pipeline.icrf_latch.common }

/-- Slow-path entry point starting at EX (`vr4300_cycle_slow_ex`):
like the RF entry point, with the RF/EX latch's fault copied into
EX/DC on a skip; continues at RF. -/
def vr4300_cycle_slow_ex (env : Env) (s : VR4300) : VR4300 :=
  if s.pipeline.rfex_latch.common.fault = VR4300_FAULT_NONE then
    let p := vr4300_ex_stage env s
    if p.2 then p.1 else vr4300_cycle_slow_rf env p.1
  else
    vr4300_cycle_slow_rf env
      { s with pipeline.exdc_latch.common := s.pipeline.rfex_latch.common }

/-- Slow-path entry point starting at DC (`vr4300_cycle_slow_dc`): on
an upstream EX/DC fault, copy the faulted common latch into DC/WB and
zero both the DC/WB result and destination (so the dead instruction's
writeback lands harmlessly in register zero); continues at EX. -/
def vr4300_cycle_slow_dc (env : Env) (s : VR4300) : VR4300 :=
  if s.pipeline.exdc_latch.common.fault = VR4300_FAULT_NONE then
    let p := vr4300_dc_stage env s
    if p.2 then p.1 else vr4300_cycle_slow_ex env p.1
  else
    vr4300_cycle_slow_ex env
      { s with
        pipeline.dcwb_latch.common := s.pipeline.exdc_latch.common
        pipeline.dcwb_latch.result := 0
        pipeline.dcwb_latch.dest := 0 }

/-- Exception-history bookkeeping at the head of the slow-path WB
entry point: `if (pipeline->exception_history++ > 4)
pipeline->fault_present = false;`. -/
def histUpdate (s : VR4300) : VR4300 :=
  { s with
    pipeline.exception_history := s.pipeline.exception_history + 1
    pipeline.fault_present :=
      if s.pipeline.exception_history > 4 then false else s.pipeline.fault_present }

/-- Slow-path entry point starting at WB (`vr4300_cycle_slow_wb`):
update the exception history (re-engaging the fast path once it has
run long enough without faults), run WB when the DC/WB latch carries
no fault (WB never aborts), and continue at DC. -/
def vr4300_cycle_slow_wb (env : Env) (s : VR4300) : VR4300 :=
  let s1 := histUpdate s
  if s1.pipeline.dcwb_latch.common.fault = VR4300_FAULT_NONE then
    let p := vr4300_wb_stage s1
    if p.2 then p.1 else vr4300_cycle_slow_dc env p.1
  else
    vr4300_cycle_slow_dc env s1

/-- Busy-wait handler (`vr4300_cycle_busywait`): do no pipeline work,
only raise the interrupt fault when a masked, enabled interrupt is
pending. -/
def vr4300_cycle_busywait (env : Env) (s : VR4300) : VR4300 :=
  if interruptPending s then env.VR4300_INTR s else s

/-- Slow-path function table (`pipeline_function_lut`): the five
per-stage entry points, the busy-wait special and the
data-cache-block fault handler `VR4300_DCB`.  Indices outside the
C array are undefined behaviour in the source; the model maps them to
the identity. -/
def pipeline_function_lut (env : Env) : Nat → VR4300 → VR4300
  | 0 => vr4300_cycle_slow_wb env
  | 1 => vr4300_cycle_slow_dc env
  | 2 => vr4300_cycle_slow_ex env
  | 3 => vr4300_cycle_slow_rf env
  | 4 => vr4300_cycle_slow_ic env
  | 5 => vr4300_cycle_busywait env
  | 6 => env.VR4300_DCB
  | _ => id

/-- Counter block at the top of `vr4300_cycle`: increment the global
cycle counter, advance CP0 Count on the (incremented) counter's low
bit, and set the compare-interrupt bit 15 of Cause when the 32-bit
truncations of Count and Compare coincide. -/
def counterUpdate (s : VR4300) : VR4300 :=
  let cycles2 := (s.cycles + 1) % U64
  let regs1 := updReg s.regs VR4300_CP0_REGISTER_COUNT
    ((s.regs VR4300_CP0_REGISTER_COUNT + (cycles2 &&& 1)) % U64)
  let regs2 :=
    if regs1 VR4300_CP0_REGISTER_COUNT % U32 = regs1 VR4300_CP0_REGISTER_COMPARE % U32 then
      updReg regs1 VR4300_CP0_REGISTER_CAUSE (regs1 VR4300_CP0_REGISTER_CAUSE ||| 0x8000)
    else regs1
  { s with cycles := cycles2, regs := regs2 }

/-- Fast-path pass of `vr4300_cycle`: the five stages in reverse
program order — WB, DC, EX, RF, IC — short-circuiting at the first
stage that reports abort. -/
def fastPath (env : Env) (s : VR4300) : VR4300 :=
  let p1 := vr4300_wb_stage s
  if p1.2 then p1.1 else
  let p2 := vr4300_dc_stage env p1.1
  if p2.2 then p2.1 else
  let p3 := vr4300_ex_stage env p2.1
  if p3.2 then p3.1 else
  let p4 := vr4300_rf_stage env p3.1
  if p4.2 then p4.1 else
  (vr4300_ic_stage env p4.1).1

/-- Master tick (`vr4300_cycle`): counter block; outstanding stall
cycles consume the tick; the fast path runs unless the fault-present
flag or the pipeline-cycle-type slot is set, in which case the
slow-path table dispatches on the cycle type. -/
def vr4300_cycle (env : Env) (s0 : VR4300) : VR4300 :=
  let s := counterUpdate s0
  if s.pipeline.cycles_to_stall > 0 then
    { s with pipeline.cycles_to_stall := s.pipeline.cycles_to_stall - 1 }
  else if (if s.pipeline.fault_present then 1 else 0) + s.regs PIPELINE_CYCLE_TYPE ≠ 0 then
    pipeline_function_lut env (s.regs PIPELINE_CYCLE_TYPE) s
  else
    fastPath env s

/-- Pipeline initialisation (`vr4300_pipeline_init`): seed the IC/RF
and EX/DC latches' segment descriptors with the default segment.  The
function touches nothing else. -/
def vr4300_pipeline_init (env : Env) (p : Pipeline) : Pipeline :=
  { p with
    icrf_latch.segment := env.default_segment
    exdc_latch.segment := env.default_segment }

/-! Concrete fixtures used by witnesses: a trivial collaborator
environment and small concrete states. -/

/-- Segment fixture. -/
def seg0 : Segment := { start := 0, length := 0, offset := 0, mapped := false, cached := false }

/-- Common latch fixture (fault `None`). -/
def common0 : Common := { pc := 0, fault := VR4300_FAULT_NONE, cause_data := 0 }

/-- Bus request fixture (type `None`). -/
def req0 : BusRequest :=
  { vaddr := 0, data := 0, dqm := 0, postshift := 0, reqType := busRequestNone,
    paddr := 0, size := 0, two_words := false }

/-- Pipeline fixture: all-zero latches, no stall, no fault. -/
def pipeline0 : Pipeline :=
  { icrf_latch := { segment := seg0, pc := 0, common := common0 }
    rfex_latch := { common := common0, paddr := 0, opcode := { id := 0, flags := 0 },
                    iw := 0, iw_mask := 0 }
    exdc_latch := { common := common0, result := 0, dest := 0, request := req0, segment := seg0 }
    dcwb_latch := { common := common0, result := 0, dest := 0 }
    exception_history := 0
    cycles_to_stall := 0
    fault_present := false }

/-- Trivial collaborator environment: every probe misses, every raiser
is the identity, the opcode dispatch is a no-op. -/
def trivEnv : Env :=
  { decode := fun _ => { id := 0, flags := 0 }
    get_segment := fun _ _ => none
    default_segment := seg0
    tlb_probe := fun _ _ => none
    page_mask := fun _ => 0
    pfn := fun _ _ => 0
    icache_probe := fun _ _ => none
    dcache_probe := fun _ _ => none
    exec := fun _ s _ _ _ => (s, false)
    VR4300_RST := id
    VR4300_INTR := id
    VR4300_LDI := id
    VR4300_IADE := id
    VR4300_ICB := id
    VR4300_DADE := id
    VR4300_DCM := id
    VR4300_DCB := id }

/-- All-zero machine state fixture. -/
def state0 : VR4300 :=
  { regs := fun _ => 0, pipeline := pipeline0, cycles := 0, signals := 0,
    dcache := fun _ => { data := fun _ => 0, dirty := false }, crashed := false }

/-- Depth of the five-stage pipeline. -/
def pipelineDepth : Nat := 5

/-- Effect of one slow-path WB tick on the pair (exception history,
fault-present flag), as performed by `histUpdate` at the entry point's
head: post-increment the counter, clearing the flag when the
pre-increment value exceeds 4. -/
def histStep (p : Nat × Bool) : Nat × Bool :=
  (p.1 + 1, if p.1 > 4 then false else p.2)

/-- Modelled from the spec: `fault.c`'s `VR4300_LDI` raiser is not
under `src/`.  Per §7 a `LoadDelayInterlock` is a stall, not a true
fault: the same instruction re-runs next tick (§4.5 sets the
pipeline-cycle-type to the aborting stage, EX, which is slot 2 of the
slow-path table), no stall cycles are added (§8: exactly one extra
tick), and the latched request's busy state is cleared so that the
re-run — with the loaded value now forwardable from the DC/WB latch —
succeeds instead of interlocking again. -/
def VR4300_LDI_model (s : VR4300) : VR4300 :=
  { s with
    pipeline.exdc_latch.request.reqType := busRequestNone
    regs := updReg s.regs PIPELINE_CYCLE_TYPE 2 }

/-- Contract on the out-of-repository collaborators (fault raisers and
opcode handlers) that they do not touch the global cycle counter —
true of cen64's `fault.c` raisers and instruction implementations,
which only update latches, registers and pipeline bookkeeping. -/
def EnvFixesCycles (env : Env) : Prop :=
  (∀ s, (env.VR4300_RST s).cycles = s.cycles) ∧
  (∀ s, (env.VR4300_INTR s).cycles = s.cycles) ∧
  (∀ s, (env.VR4300_LDI s).cycles = s.cycles) ∧
  (∀ s, (env.VR4300_IADE s).cycles = s.cycles) ∧
  (∀ s, (env.VR4300_ICB s).cycles = s.cycles) ∧
  (∀ s, (env.VR4300_DADE s).cycles = s.cycles) ∧
  (∀ s, (env.VR4300_DCM s).cycles = s.cycles) ∧
  (∀ s, (env.VR4300_DCB s).cycles = s.cycles) ∧
  (∀ i s iw a b, ((env.exec i s iw a b).1).cycles = s.cycles)

/-- Contract on the out-of-repository collaborators (fault raisers and
opcode handlers) that they preserve a zero architectural zero
register — true of cen64's `fault.c` and instruction implementations,
which never write `regs[0]` (writes are funnelled through the latch
destinations). -/
def EnvPreservesR0 (env : Env) : Prop :=
  (∀ s, s.regs VR4300_REGISTER_R0 = 0 → (env.VR4300_RST s).regs VR4300_REGISTER_R0 = 0) ∧
  (∀ s, s.regs VR4300_REGISTER_R0 = 0 → (env.VR4300_INTR s).regs VR4300_REGISTER_R0 = 0) ∧
  (∀ s, s.regs VR4300_REGISTER_R0 = 0 → (env.VR4300_LDI s).regs VR4300_REGISTER_R0 = 0) ∧
  (∀ s, s.regs VR4300_REGISTER_R0 = 0 → (env.VR4300_IADE s).regs VR4300_REGISTER_R0 = 0) ∧
  (∀ s, s.regs VR4300_REGISTER_R0 = 0 → (env.VR4300_ICB s).regs VR4300_REGISTER_R0 = 0) ∧
  (∀ s, s.regs VR4300_REGISTER_R0 = 0 → (env.VR4300_DADE s).regs VR4300_REGISTER_R0 = 0) ∧
  (∀ s, s.regs VR4300_REGISTER_R0 = 0 → (env.VR4300_DCM s).regs VR4300_REGISTER_R0 = 0) ∧
  (∀ s, s.regs VR4300_REGISTER_R0 = 0 → (env.VR4300_DCB s).regs VR4300_REGISTER_R0 = 0) ∧
  (∀ i s iw a b, s.regs VR4300_REGISTER_R0 = 0 →
    ((env.exec i s iw a b).1).regs VR4300_REGISTER_R0 = 0)

/-- Segment fixture for the data-cache round-trip law: the identity
(offset 0) unmapped cached segment covering the low 4 GiB. -/
def dcTestSeg : Segment :=
  { start := 0, length := U32, offset := 0, mapped := false, cached := true }

/-- Bus request issued by an aligned store of size `sz ∈ {1,2,4}` of
byte pattern `B` at `vaddr`: the data and the byte mask are positioned
within the 32-bit word per the big-endian byte lanes (`8 * (4 - sz -
vaddr % 4)` bits up), as the opcode layer positions them. -/
def smallStoreReq (vaddr B sz : Nat) : BusRequest :=
  { vaddr := vaddr, data := B <<< (8 * (4 - sz - vaddr % 4)),
    dqm := (2 ^ (8 * sz) - 1) <<< (8 * (4 - sz - vaddr % 4)), postshift := 0,
    reqType := busRequestWrite, paddr := 0, size := sz, two_words := false }

/-- Bus request issued by an aligned load of size `sz ∈ {1,2,4}` at
`vaddr` (zero-extending `dqm`, no postshift). -/
def smallLoadReq (vaddr sz : Nat) : BusRequest :=
  { vaddr := vaddr, data := 0, dqm := 2 ^ (8 * sz) - 1, postshift := 0,
    reqType := busRequestRead, paddr := 0, size := sz, two_words := false }

/-- Bus request issued by an aligned 8-byte (two-word) store of `B`. -/
def twoWordStoreReq (vaddr B : Nat) : BusRequest :=
  { vaddr := vaddr, data := B, dqm := 2 ^ 64 - 1, postshift := 0,
    reqType := busRequestWrite, paddr := 0, size := 8, two_words := true }

/-- Bus request issued by an aligned 8-byte (two-word) load. -/
def twoWordLoadReq (vaddr : Nat) : BusRequest :=
  { vaddr := vaddr, data := 0, dqm := 2 ^ 64 - 1, postshift := 0,
    reqType := busRequestRead, paddr := 0, size := 8, two_words := true }

/-- State on which the DC stage performs a store: `s` with the store
request latched in EX/DC. -/
def storeTick (s : VR4300) (wreq : BusRequest) : VR4300 :=
  { s with pipeline.exdc_latch.request := wreq }

/-- State on which the DC stage performs the subsequent load: the
post-store state with the load request latched and a zero preliminary
result (as a plain load leaves in EX/DC). -/
def loadTick (env : Env) (s : VR4300) (wreq rreq : BusRequest) : VR4300 :=
  { (vr4300_dc_stage env (storeTick s wreq)).1 with
    pipeline.exdc_latch.request := rreq
    pipeline.exdc_latch.result := 0 }

/-- Environment fixture whose data-cache probe always hits line 0. -/
def envMem : Env := { trivEnv with dcache_probe := fun _ _ => some 0 }

/-- State fixture with the identity test segment latched for the data
side. -/
def stateMem : VR4300 := { state0 with pipeline.exdc_latch.segment := dcTestSeg }

/-! Small helper lemmas. -/

lemma updReg_self (f : Nat → Nat) (i v : Nat) : updReg f i v i = v := by
  simp [updReg]

lemma updReg_ne (f : Nat → Nat) (i v j : Nat) (h : j ≠ i) : updReg f i v j = f j := by
  simp [updReg, h]

lemma counterUpdate_pipeline (s : VR4300) : (counterUpdate s).pipeline = s.pipeline := rfl

lemma counterUpdate_signals (s : VR4300) : (counterUpdate s).signals = s.signals := rfl

lemma counterUpdate_cycles (s : VR4300) : (counterUpdate s).cycles = (s.cycles + 1) % U64 := rfl

lemma counterUpdate_regs_ne (s : VR4300) (i : Nat)
    (h1 : i ≠ VR4300_CP0_REGISTER_COUNT) (h2 : i ≠ VR4300_CP0_REGISTER_CAUSE) :
    (counterUpdate s).regs i = s.regs i := by
  unfold counterUpdate
  dsimp only
  split <;> simp [updReg, h1, h2]

lemma counterUpdate_regs_pct (s : VR4300) :
    (counterUpdate s).regs PIPELINE_CYCLE_TYPE = s.regs PIPELINE_CYCLE_TYPE := by
  apply counterUpdate_regs_ne <;> decide

/-- Claim C9, counterexample: the claim says `pipeline_init(P)` resets
all four inter-stage latches, but the code only seeds the two segment
descriptors — on a pipeline whose DC/WB latch holds result 7, the
result is still 7 (not reset) after `vr4300_pipeline_init`. -/
theorem c9_counterexample :
    (vr4300_pipeline_init trivEnv
      { pipeline0 with dcwb_latch.result := 7 }).dcwb_latch.result = 7 ∧ (7 : Nat) ≠ 0 :=
  ⟨rfl, by decide⟩

/-- Claim C9, amended: `vr4300_pipeline_init` seeds the IC/RF and
EX/DC latches' segment descriptors with the default segment descriptor
and leaves all other pipeline state (including all four latches'
remaining fields) unchanged. -/
theorem c9_amended (env : Env) (p : Pipeline) :
    vr4300_pipeline_init env p =
      { p with
        icrf_latch.segment := env.default_segment
        exdc_latch.segment := env.default_segment } := rfl

/-- Claim C2: when `vr4300_cycle` runs with no outstanding stall
cycles, if neither the fault-present flag nor the pipeline-cycle-type
register slot is set it performs the fast-path pass — the five stages
in reverse program order (WB, DC, EX, RF, IC), short-circuiting at the
first abort, which is exactly `fastPath` — and if either is set it
dispatches through `pipeline_function_lut` indexed by the
pipeline-cycle-type value (both after the counter block). -/
theorem c2_cycle_dispatch (env : Env) (s : VR4300)
    (hstall : s.pipeline.cycles_to_stall = 0) :
    (s.pipeline.fault_present = false → s.regs PIPELINE_CYCLE_TYPE = 0 →
      vr4300_cycle env s = fastPath env (counterUpdate s)) ∧
    (s.pipeline.fault_present = true ∨ s.regs PIPELINE_CYCLE_TYPE ≠ 0 →
      vr4300_cycle env s =
        pipeline_function_lut env (s.regs PIPELINE_CYCLE_TYPE) (counterUpdate s)) := by
  constructor
  · intro hf hp
    unfold vr4300_cycle
    simp [counterUpdate_pipeline, counterUpdate_regs_pct, hstall, hf, hp]
  · intro h
    unfold vr4300_cycle
    rcases h with h | h
    · simp [counterUpdate_pipeline, counterUpdate_regs_pct, hstall, h]
    · simp only [counterUpdate_pipeline, counterUpdate_regs_pct, hstall]
      have : (if s.pipeline.fault_present then 1 else 0) + s.regs PIPELINE_CYCLE_TYPE ≠ 0 := by
        cases hf : s.pipeline.fault_present <;> simp [h]
      simp [this]

/-- Claim C2 witness: the fast-path branch taken on the all-zero
state. -/
theorem c2_cycle_dispatch_witness :
    vr4300_cycle trivEnv state0 = fastPath trivEnv (counterUpdate state0) :=
  (c2_cycle_dispatch trivEnv state0 rfl).1 rfl rfl

/-- Claim C3: DC-stage exception precedence.  Before any memory work
(the stage body dispatches to `dc_after_exceptions` only past both
checks): a cold-reset signal raises the reset fault and aborts, taking
priority; otherwise the interrupt fault is raised and the stage aborts
exactly when `(Cause & Status & 0xFF00)` is nonzero, the IE bit
`Status & 1` is set and the EXL/ERL bits `Status & 6` are both clear
(all read as 32-bit truncations, as the C locals are); in particular
with either EXL or ERL set the interrupt is not delivered and the
stage proceeds to its memory path. -/
theorem c3_dc_exception_precedence (env : Env) (s : VR4300) :
    (s.signals &&& VR4300_SIGNAL_COLDRESET ≠ 0 →
      vr4300_dc_stage env s = (env.VR4300_RST (dcCopy s), true)) ∧
    (s.signals &&& VR4300_SIGNAL_COLDRESET = 0 →
      (interruptPending s = true →
        vr4300_dc_stage env s = (env.VR4300_INTR (dcCopy s), true)) ∧
      (interruptPending s = true ↔
        ((s.regs VR4300_CP0_REGISTER_CAUSE % U32) &&&
          (s.regs VR4300_CP0_REGISTER_STATUS % U32) &&& 0xFF00 ≠ 0 ∧
         (s.regs VR4300_CP0_REGISTER_STATUS % U32) &&& 1 ≠ 0 ∧
         (s.regs VR4300_CP0_REGISTER_STATUS % U32) &&& 6 = 0)) ∧
      ((s.regs VR4300_CP0_REGISTER_STATUS % U32) &&& 6 ≠ 0 →
        vr4300_dc_stage env s = dc_after_exceptions env (dcCopy s))) := by
  refine ⟨fun h => ?_, fun h => ⟨fun hi => ?_, ?_, fun hexl => ?_⟩⟩
  · unfold vr4300_dc_stage
    simp [h]
  · unfold vr4300_dc_stage
    simp [h, hi]
  · unfold interruptPending
    simp [Bool.and_eq_true, decide_eq_true_eq, bne_iff_ne, beq_iff_eq, and_assoc]
  · have hnp : interruptPending s = false := by
      unfold interruptPending
      simp only [Bool.and_eq_false_iff]
      right
      simp [beq_iff_eq, hexl]
    unfold vr4300_dc_stage
    simp [h, hnp]

/-- Claim C3 witness: on a state with the cold-reset signal raised,
the DC stage aborts through the reset raiser. -/
theorem c3_dc_exception_precedence_witness :
    vr4300_dc_stage trivEnv { state0 with signals := 1 } =
      (trivEnv.VR4300_RST (dcCopy { state0 with signals := 1 }), true) :=
  (c3_dc_exception_precedence trivEnv { state0 with signals := 1 }).1 (by decide)

/-- Shared helper: the DC slow-path entry point's skip branch. -/
lemma slow_dc_skip (env : Env) (s : VR4300)
    (h : s.pipeline.exdc_latch.common.fault ≠ VR4300_FAULT_NONE) :
    vr4300_cycle_slow_dc env s = vr4300_cycle_slow_ex env
      { s with
        pipeline.dcwb_latch.common := s.pipeline.exdc_latch.common
        pipeline.dcwb_latch.result := 0
        pipeline.dcwb_latch.dest := 0 } := by
  unfold vr4300_cycle_slow_dc
  simp [h]

/-- Claim C8: in slow-path mode a fault travels down the pipeline one
latch per entry-point invocation without unwinding.  Whenever a stage's
upstream C-latch carries a non-`None` fault tag, the entry point copies
that C-latch forward into the downstream latch and skips the stage's
work, running the remaining stages from there down to IC: the WB entry
point skips writeback (delivery is performed by the external fault
handler), the DC entry point forwards EX/DC into DC/WB (neutralising
result and destination), the EX entry point forwards RF/EX into EX/DC,
and the RF entry point forwards IC/RF into RF/EX. -/
theorem c8_fault_propagation (env : Env) (s : VR4300) :
    (s.pipeline.dcwb_latch.common.fault ≠ VR4300_FAULT_NONE →
      vr4300_cycle_slow_wb env s = vr4300_cycle_slow_dc env (histUpdate s)) ∧
    (s.pipeline.exdc_latch.common.fault ≠ VR4300_FAULT_NONE →
      vr4300_cycle_slow_dc env s = vr4300_cycle_slow_ex env
        { s with
          pipeline.dcwb_latch.common := s.pipeline.exdc_latch.common
          pipeline.dcwb_latch.result := 0
          pipeline.dcwb_latch.dest := 0 }) ∧
    (s.pipeline.rfex_latch.common.fault ≠ VR4300_FAULT_NONE →
      vr4300_cycle_slow_ex env s = vr4300_cycle_slow_rf env
        { s with pipeline.exdc_latch.common := s.pipeline.rfex_latch.common }) ∧
    (s.pipeline.icrf_latch.common.fault ≠ VR4300_FAULT_NONE →
      vr4300_cycle_slow_rf env s = vr4300_cycle_slow_ic env
        { s with pipeline.rfex_latch.common := s.pipeline.icrf_latch.common }) := by
  refine ⟨fun h => ?_, fun h => slow_dc_skip env s h, fun h => ?_, fun h => ?_⟩
  · unfold vr4300_cycle_slow_wb
    have : (histUpdate s).pipeline.dcwb_latch.common.fault ≠ VR4300_FAULT_NONE := h
    simp [this]
  · unfold vr4300_cycle_slow_ex
    simp [h]
  · unfold vr4300_cycle_slow_rf
    simp [h]

/-- Claim C8 witness: a faulted EX/DC latch is copied into DC/WB by
the DC entry point on a concrete state. -/
theorem c8_fault_propagation_witness :
    vr4300_cycle_slow_dc trivEnv
      { state0 with pipeline.exdc_latch.common.fault := 3 } =
    vr4300_cycle_slow_ex trivEnv
      { { state0 with pipeline.exdc_latch.common.fault := 3 } with
        pipeline.dcwb_latch.common :=
          { state0 with pipeline.exdc_latch.common.fault := 3 }.pipeline.exdc_latch.common
        pipeline.dcwb_latch.result := 0
        pipeline.dcwb_latch.dest := 0 } :=
  (c8_fault_propagation trivEnv _).2.1 (by decide)

/-- Claim C10: when the slow-path DC entry point skips the DC stage
because the EX/DC latch carries a fault, it hands off a state whose
DC/WB result and destination are both zero; a writeback on such a
DC/WB latch writes zero into register zero and leaves every other
register unchanged. -/
theorem c10_dead_writeback (env : Env) (s : VR4300) :
    (s.pipeline.exdc_latch.common.fault ≠ VR4300_FAULT_NONE →
      vr4300_cycle_slow_dc env s = vr4300_cycle_slow_ex env
        { s with
          pipeline.dcwb_latch.common := s.pipeline.exdc_latch.common
          pipeline.dcwb_latch.result := 0
          pipeline.dcwb_latch.dest := 0 }) ∧
    (∀ t : VR4300,
      t.pipeline.dcwb_latch.dest = VR4300_REGISTER_R0 →
      t.pipeline.dcwb_latch.result = 0 →
      (vr4300_wb_stage t).1.regs VR4300_REGISTER_R0 = 0 ∧
      ∀ i, i ≠ VR4300_REGISTER_R0 → (vr4300_wb_stage t).1.regs i = t.regs i) := by
  refine ⟨fun h => slow_dc_skip env s h, fun t hd hr => ⟨?_, fun i hi => ?_⟩⟩
  · simp [vr4300_wb_stage, updReg_self]
  · simp [vr4300_wb_stage]
    rw [updReg_ne _ _ _ _ hi, updReg_ne]
    rw [hd]
    exact hi

/-- Claim C10 witness: concrete skip state, and the frame property of
writeback evaluated at register 5. -/
theorem c10_dead_writeback_witness :
    (vr4300_cycle_slow_dc trivEnv
      { state0 with pipeline.exdc_latch.common.fault := 2 } =
     vr4300_cycle_slow_ex trivEnv
      { { state0 with pipeline.exdc_latch.common.fault := 2 } with
        pipeline.dcwb_latch.common :=
          { state0 with pipeline.exdc_latch.common.fault := 2 }.pipeline.exdc_latch.common
        pipeline.dcwb_latch.result := 0
        pipeline.dcwb_latch.dest := 0 }) ∧
    (vr4300_wb_stage state0).1.regs VR4300_REGISTER_R0 = 0 ∧
    (vr4300_wb_stage state0).1.regs 5 = state0.regs 5 :=
  ⟨(c10_dead_writeback trivEnv _).1 (by decide),
   ((c10_dead_writeback trivEnv state0).2 state0 rfl rfl).1,
   ((c10_dead_writeback trivEnv state0).2 state0 rfl rfl).2 5 (by decide)⟩

lemma histStep_iterate (n : Nat) :
    histStep^[n] (0, true) = (n, decide (n < pipelineDepth + 1)) := by
  induction n with
  | zero => rfl
  | succ k ih =>
    rw [Function.iterate_succ_apply', ih]
    unfold histStep pipelineDepth
    by_cases h : k > 4
    · simp [h]
      omega
    · simp [h]
      constructor <;> omega

/-- Claim C4: the slow-path WB entry point increments
`exception_history` at the head of every tick and clears the
fault-present flag (re-engaging the fast path) only when the counter
had already counted at least `pipelineDepth` (= 5) fault-free WB
ticks; iterating the per-tick update from a fresh fault (counter 0,
flag set), the flag first becomes false on tick `pipelineDepth + 1` —
after exactly `pipelineDepth + 1` consecutive fault-free WB ticks the
fast path is re-engaged, and not before. -/
theorem c4_exception_history (env : Env) (s : VR4300) :
    (vr4300_cycle_slow_wb env s =
      (if (histUpdate s).pipeline.dcwb_latch.common.fault = VR4300_FAULT_NONE then
        vr4300_cycle_slow_dc env (vr4300_wb_stage (histUpdate s)).1
      else vr4300_cycle_slow_dc env (histUpdate s))) ∧
    (((histUpdate s).pipeline.exception_history, (histUpdate s).pipeline.fault_present) =
      histStep (s.pipeline.exception_history, s.pipeline.fault_present)) ∧
    (s.pipeline.fault_present = true →
      ((histUpdate s).pipeline.fault_present = false ↔
        pipelineDepth ≤ s.pipeline.exception_history)) ∧
    (∀ n, (histStep^[n] (0, true)).2 = false ↔ pipelineDepth + 1 ≤ n) := by
  refine ⟨?_, rfl, fun hf => ?_, fun n => ?_⟩
  · unfold vr4300_cycle_slow_wb
    split <;> simp_all [vr4300_wb_stage]
  · unfold histUpdate pipelineDepth
    dsimp only
    constructor
    · intro h
      by_contra hlt
      simp [show ¬ (s.pipeline.exception_history > 4) by omega, hf] at h
    · intro h
      simp [show s.pipeline.exception_history > 4 by omega]
  · rw [histStep_iterate]
    simp

/-- Claim C4 witness: on the fifth consecutive fault-free WB tick
after a fault (counter at 5, flag still set) the flag clears, and
iterating from zero the flag is still set after 5 ticks but clear
after 6. -/
theorem c4_exception_history_witness :
    ((histUpdate { state0 with
        pipeline.exception_history := 5, pipeline.fault_present := true
      }).pipeline.fault_present = false) ∧
    (histStep^[5] (0, true)).2 = true ∧ (histStep^[6] (0, true)).2 = false :=
  ⟨((c4_exception_history trivEnv _).2.2.1 rfl).mpr (by decide),
   by decide,
   ((c4_exception_history trivEnv state0).2.2.2 6).mpr (by decide)⟩

lemma ex_flags_no_read (s : VR4300)
    (h : s.pipeline.exdc_latch.request.reqType ≠ busRequestRead) :
    ex_flags s &&& OPCODE_INFO_NEEDRS = 0 ∧ ex_flags s &&& OPCODE_INFO_NEEDRT = 0 := by
  unfold ex_flags
  simp only [h, if_pos, ne_eq, not_false_iff, if_true]
  constructor <;>
    · rw [Nat.and_assoc]
      norm_num [show not32 (OPCODE_INFO_NEEDRS ||| OPCODE_INFO_NEEDRT) &&& OPCODE_INFO_NEEDRS = 0
        from by decide,
        show not32 (OPCODE_INFO_NEEDRS ||| OPCODE_INFO_NEEDRT) &&& OPCODE_INFO_NEEDRT = 0
        from by decide]

/-- Claim C6: load-use interlock.  (1) If the prior instruction's
destination register (the DC/WB latch destination) equals the rs or rt
source the current opcode requires — `exLdiCond`, computed from the
reads-Rs/reads-Rt opcode flags, which survive only while the latched
prior request is a read (a load) — the EX stage aborts the tick
through the load-delay-interlock raiser.  (2) Under the spec-modelled
`VR4300_LDI` raiser the very next `vr4300_cycle` re-enters the
pipeline at the EX stage (slow-path slot 2), i.e. the instruction
spends exactly one extra tick in EX.  (3) On re-entry the interlock
condition no longer holds, so the re-run is not interlocked again. -/
theorem c6_load_use_interlock :
    (∀ (env : Env) (s : VR4300), exLdiCond s = true →
      vr4300_ex_stage env s =
        (env.VR4300_LDI { s with pipeline.exdc_latch.common := s.pipeline.rfex_latch.common },
         true)) ∧
    (∀ s : VR4300, exLdiCond s = true ↔
      ((s.pipeline.dcwb_latch.dest = ex_rs s ∧ ex_flags s &&& OPCODE_INFO_NEEDRS ≠ 0) ∨
       (s.pipeline.dcwb_latch.dest = ex_rt s ∧ ex_flags s &&& OPCODE_INFO_NEEDRT ≠ 0))) ∧
    (∀ (env : Env) (s : VR4300), s.pipeline.cycles_to_stall = 0 →
      vr4300_cycle env (VR4300_LDI_model s) =
        vr4300_cycle_slow_ex env (counterUpdate (VR4300_LDI_model s))) ∧
    (∀ s : VR4300, exLdiCond (counterUpdate (VR4300_LDI_model s)) = false) := by
  refine ⟨fun env s h => ?_, fun s => ?_, fun env s h => ?_, fun s => ?_⟩
  · unfold vr4300_ex_stage
    simp [h]
  · unfold exLdiCond
    simp [Bool.or_eq_true, Bool.and_eq_true, beq_iff_eq, bne_iff_ne]
  · unfold vr4300_cycle
    have hstall : (counterUpdate (VR4300_LDI_model s)).pipeline.cycles_to_stall = 0 := h
    have hpct : (counterUpdate (VR4300_LDI_model s)).regs PIPELINE_CYCLE_TYPE = 2 := by
      rw [counterUpdate_regs_pct]
      simp [VR4300_LDI_model, updReg_self]
    simp only [hstall, hpct]
    have : (if (counterUpdate (VR4300_LDI_model s)).pipeline.fault_present then 1 else 0)
        + 2 ≠ 0 := by
      split <;> omega
    simp [this, pipeline_function_lut]
  · have hreq : (counterUpdate (VR4300_LDI_model s)).pipeline.exdc_latch.request.reqType
        ≠ busRequestRead := by
      rw [counterUpdate_pipeline]
      simp [VR4300_LDI_model, busRequestNone, busRequestRead]
    obtain ⟨h1, h2⟩ := ex_flags_no_read _ hreq
    unfold exLdiCond
    simp [h1, h2]

/-- Claim C6 witness: a concrete interlocking state — prior
instruction is a load (latched read request) destined for r0 while the
current opcode reads rs = r0 — aborts EX through the LDI raiser. -/
theorem c6_load_use_interlock_witness :
    vr4300_ex_stage trivEnv
      { state0 with
        pipeline.rfex_latch.opcode := { id := 0, flags := OPCODE_INFO_NEEDRS }
        pipeline.exdc_latch.request.reqType := busRequestRead } =
    (trivEnv.VR4300_LDI
      { { state0 with
          pipeline.rfex_latch.opcode := { id := 0, flags := OPCODE_INFO_NEEDRS }
          pipeline.exdc_latch.request.reqType := busRequestRead } with
        pipeline.exdc_latch.common :=
          { state0 with
            pipeline.rfex_latch.opcode := { id := 0, flags := OPCODE_INFO_NEEDRS }
            pipeline.exdc_latch.request.reqType := busRequestRead
          }.pipeline.rfex_latch.common }, true) :=
  c6_load_use_interlock.1 trivEnv _ (by decide)

lemma ic_cycles (env : Env) (s : VR4300) (hE : EnvFixesCycles env) :
    ((vr4300_ic_stage env s).1).cycles = s.cycles := by
  obtain ⟨h1, h2, h3, h4, h5, h6, h7, h8, h9⟩ := hE
  unfold vr4300_ic_stage
  dsimp only
  split
  · split <;> simp [h4]
  · rfl

lemma rf_cycles (env : Env) (s : VR4300) (hE : EnvFixesCycles env) :
    ((vr4300_rf_stage env s).1).cycles = s.cycles := by
  obtain ⟨h1, h2, h3, h4, h5, h6, h7, h8, h9⟩ := hE
  unfold vr4300_rf_stage
  dsimp only
  split
  · rfl
  · split
    · simp [h5]
    · split <;> simp [h5]

lemma ex_cycles (env : Env) (s : VR4300) (hE : EnvFixesCycles env) :
    ((vr4300_ex_stage env s).1).cycles = s.cycles := by
  obtain ⟨h1, h2, h3, h4, h5, h6, h7, h8, h9⟩ := hE
  unfold vr4300_ex_stage
  dsimp only
  split
  · simp [h3]
  · simp [h9]

lemma dc_cycles (env : Env) (s : VR4300) (hE : EnvFixesCycles env) :
    ((vr4300_dc_stage env s).1).cycles = s.cycles := by
  obtain ⟨h1, h2, h3, h4, h5, h6, h7, h8, h9⟩ := hE
  unfold vr4300_dc_stage dc_after_exceptions dc_mem dc_mem_translated dc_access
  dsimp only
  split
  · simp [h1, dcCopy]
  · split
    · simp [h2, dcCopy]
    · split
      · split
        · split
          · simp [h6, dcCopy]
          · split
            · rfl
            · split
              · simp [h7, dcCopy]
              · split
                · simp [h7, dcCopy]
                · split
                  · rfl
                  · split <;> rfl
        · split
          · rfl
          · split
            · simp [h7, dcCopy]
            · split
              · simp [h7, dcCopy]
              · split
                · rfl
                · split <;> rfl
      · rfl

lemma wb_cycles (s : VR4300) : ((vr4300_wb_stage s).1).cycles = s.cycles := rfl

lemma slow_ic_cycles (env : Env) (s : VR4300) (hE : EnvFixesCycles env) :
    (vr4300_cycle_slow_ic env s).cycles = s.cycles := by
  unfold vr4300_cycle_slow_ic
  dsimp only
  split
  · exact ic_cycles env s hE
  · exact ic_cycles env s hE

lemma slow_rf_cycles (env : Env) (s : VR4300) (hE : EnvFixesCycles env) :
    (vr4300_cycle_slow_rf env s).cycles = s.cycles := by
  unfold vr4300_cycle_slow_rf
  dsimp only
  split
  · split
    · exact rf_cycles env s hE
    · rw [slow_ic_cycles env _ hE, rf_cycles env s hE]
  · rw [slow_ic_cycles env _ hE]

lemma slow_ex_cycles (env : Env) (s : VR4300) (hE : EnvFixesCycles env) :
    (vr4300_cycle_slow_ex env s).cycles = s.cycles := by
  unfold vr4300_cycle_slow_ex
  dsimp only
  split
  · split
    · exact ex_cycles env s hE
    · rw [slow_rf_cycles env _ hE, ex_cycles env s hE]
  · rw [slow_rf_cycles env _ hE]

lemma slow_dc_cycles (env : Env) (s : VR4300) (hE : EnvFixesCycles env) :
    (vr4300_cycle_slow_dc env s).cycles = s.cycles := by
  unfold vr4300_cycle_slow_dc
  dsimp only
  split
  · split
    · exact dc_cycles env s hE
    · rw [slow_ex_cycles env _ hE, dc_cycles env s hE]
  · rw [slow_ex_cycles env _ hE]

lemma slow_wb_cycles (env : Env) (s : VR4300) (hE : EnvFixesCycles env) :
    (vr4300_cycle_slow_wb env s).cycles = s.cycles := by
  unfold vr4300_cycle_slow_wb
  dsimp only
  split
  · split
    · rfl
    · rw [slow_dc_cycles env _ hE]
      rfl
  · rw [slow_dc_cycles env _ hE]
    rfl

lemma busywait_cycles (env : Env) (s : VR4300) (hE : EnvFixesCycles env) :
    (vr4300_cycle_busywait env s).cycles = s.cycles := by
  obtain ⟨h1, h2, h3, h4, h5, h6, h7, h8, h9⟩ := hE
  unfold vr4300_cycle_busywait
  split
  · exact h2 s
  · rfl

lemma lut_cycles (env : Env) (i : Nat) (s : VR4300) (hE : EnvFixesCycles env) :
    (pipeline_function_lut env i s).cycles = s.cycles := by
  unfold pipeline_function_lut
  match i with
  | 0 => exact slow_wb_cycles env s hE
  | 1 => exact slow_dc_cycles env s hE
  | 2 => exact slow_ex_cycles env s hE
  | 3 => exact slow_rf_cycles env s hE
  | 4 => exact slow_ic_cycles env s hE
  | 5 => exact busywait_cycles env s hE
  | 6 => exact hE.2.2.2.2.2.2.2.1 s
  | (n + 7) => rfl

lemma fastPath_cycles (env : Env) (s : VR4300) (hE : EnvFixesCycles env) :
    (fastPath env s).cycles = s.cycles := by
  unfold fastPath
  dsimp only
  split
  · rfl
  · split
    · rw [dc_cycles env _ hE, wb_cycles]
    · split
      · rw [ex_cycles env _ hE, dc_cycles env _ hE, wb_cycles]
      · split
        · rw [rf_cycles env _ hE, ex_cycles env _ hE, dc_cycles env _ hE, wb_cycles]
        · rw [ic_cycles env _ hE, rf_cycles env _ hE, ex_cycles env _ hE,
            dc_cycles env _ hE, wb_cycles]

/-- Claim C7: each `vr4300_cycle` call is the counter block followed
by the dispatch (so the counter increments before the stall check and
before any stage runs); the counter block increments the global cycle
counter by exactly one (64-bit), advances CP0 Count by the incremented
counter's low bit (one every two cycles), sets bit 15 of Cause in the
same tick exactly when the 32-bit truncations of Count (as updated)
and Compare coincide, and — given that the external raisers and opcode
handlers do not touch the cycle counter — the whole call increments it
exactly once. -/
theorem c7_counters (env : Env) (s : VR4300) :
    (vr4300_cycle env s =
      (if (counterUpdate s).pipeline.cycles_to_stall > 0 then
        { counterUpdate s with pipeline.cycles_to_stall :=
            (counterUpdate s).pipeline.cycles_to_stall - 1 }
      else if (if (counterUpdate s).pipeline.fault_present then 1 else 0)
          + (counterUpdate s).regs PIPELINE_CYCLE_TYPE ≠ 0 then
        pipeline_function_lut env ((counterUpdate s).regs PIPELINE_CYCLE_TYPE) (counterUpdate s)
      else fastPath env (counterUpdate s))) ∧
    ((counterUpdate s).cycles = (s.cycles + 1) % U64) ∧
    ((counterUpdate s).regs VR4300_CP0_REGISTER_COUNT =
      (s.regs VR4300_CP0_REGISTER_COUNT + (((s.cycles + 1) % U64) &&& 1)) % U64) ∧
    ((counterUpdate s).regs VR4300_CP0_REGISTER_COMPARE =
      s.regs VR4300_CP0_REGISTER_COMPARE) ∧
    ((counterUpdate s).regs VR4300_CP0_REGISTER_COUNT % U32 =
        (counterUpdate s).regs VR4300_CP0_REGISTER_COMPARE % U32 →
      (counterUpdate s).regs VR4300_CP0_REGISTER_CAUSE =
        s.regs VR4300_CP0_REGISTER_CAUSE ||| 0x8000) ∧
    ((counterUpdate s).regs VR4300_CP0_REGISTER_COUNT % U32 ≠
        (counterUpdate s).regs VR4300_CP0_REGISTER_COMPARE % U32 →
      (counterUpdate s).regs VR4300_CP0_REGISTER_CAUSE =
        s.regs VR4300_CP0_REGISTER_CAUSE) ∧
    (EnvFixesCycles env → (vr4300_cycle env s).cycles = (s.cycles + 1) % U64) := by
  have hcount : (counterUpdate s).regs VR4300_CP0_REGISTER_COUNT =
      (s.regs VR4300_CP0_REGISTER_COUNT + (((s.cycles + 1) % U64) &&& 1)) % U64 := by
    unfold counterUpdate
    dsimp only
    split <;>
      simp [updReg, VR4300_CP0_REGISTER_COUNT, VR4300_CP0_REGISTER_CAUSE]
  have hcompare : (counterUpdate s).regs VR4300_CP0_REGISTER_COMPARE =
      s.regs VR4300_CP0_REGISTER_COMPARE := by
    unfold counterUpdate
    dsimp only
    split <;>
      simp [updReg, VR4300_CP0_REGISTER_COUNT, VR4300_CP0_REGISTER_CAUSE,
        VR4300_CP0_REGISTER_COMPARE]
  have hcause : (counterUpdate s).regs VR4300_CP0_REGISTER_CAUSE =
      (if (counterUpdate s).regs VR4300_CP0_REGISTER_COUNT % U32 =
          (counterUpdate s).regs VR4300_CP0_REGISTER_COMPARE % U32 then
        s.regs VR4300_CP0_REGISTER_CAUSE ||| 0x8000
      else s.regs VR4300_CP0_REGISTER_CAUSE) := by
    rw [hcount, hcompare]
    unfold counterUpdate
    dsimp only
    rw [show updReg s.regs VR4300_CP0_REGISTER_COUNT
        ((s.regs VR4300_CP0_REGISTER_COUNT + ((s.cycles + 1) % U64 &&& 1)) % U64)
        VR4300_CP0_REGISTER_COUNT =
        (s.regs VR4300_CP0_REGISTER_COUNT + (((s.cycles + 1) % U64) &&& 1)) % U64
      from updReg_self _ _ _,
      show updReg s.regs VR4300_CP0_REGISTER_COUNT
        ((s.regs VR4300_CP0_REGISTER_COUNT + ((s.cycles + 1) % U64 &&& 1)) % U64)
        VR4300_CP0_REGISTER_COMPARE = s.regs VR4300_CP0_REGISTER_COMPARE
      from updReg_ne _ _ _ _ (by decide)]
    split <;>
      simp [updReg, VR4300_CP0_REGISTER_COUNT, VR4300_CP0_REGISTER_CAUSE,
        VR4300_CP0_REGISTER_COMPARE]
  refine ⟨rfl, rfl, hcount, hcompare, fun h => ?_, fun h => ?_, fun hE => ?_⟩
  · rw [hcause, if_pos h]
  · rw [hcause, if_neg h]
  · unfold vr4300_cycle
    dsimp only
    split
    · rfl
    · split <;> split <;>
        first
          | rw [lut_cycles env _ _ hE, counterUpdate_cycles]
          | rw [fastPath_cycles env _ hE, counterUpdate_cycles]

/-- Claim C7 witness: on the all-zero state (with Compare = 0 ≠ 1 =
the updated Count... actually Count becomes 1 and Compare is 0, so the
no-compare branch fires) the tick increments the cycle counter to 1. -/
theorem c7_counters_witness :
    (vr4300_cycle trivEnv state0).cycles = (state0.cycles + 1) % U64 :=
  (c7_counters trivEnv state0).2.2.2.2.2.2
    ⟨fun _ => rfl, fun _ => rfl, fun _ => rfl, fun _ => rfl, fun _ => rfl,
     fun _ => rfl, fun _ => rfl, fun _ => rfl, fun _ _ _ _ _ => rfl⟩

lemma wb_r0 (s : VR4300) : ((vr4300_wb_stage s).1).regs VR4300_REGISTER_R0 = 0 := by
  simp [vr4300_wb_stage, updReg_self]

lemma exPinnedRegs_r0 (s : VR4300) : exPinnedRegs s VR4300_REGISTER_R0 = 0 :=
  updReg_self _ _ _

lemma ic_r0 (env : Env) (s : VR4300) (hE : EnvPreservesR0 env)
    (h : s.regs VR4300_REGISTER_R0 = 0) :
    ((vr4300_ic_stage env s).1).regs VR4300_REGISTER_R0 = 0 := by
  obtain ⟨h1, h2, h3, h4, h5, h6, h7, h8, h9⟩ := hE
  unfold vr4300_ic_stage
  dsimp only
  split
  · split
    · exact h4 _ h
    · exact h
  · exact h

lemma rf_r0 (env : Env) (s : VR4300) (hE : EnvPreservesR0 env)
    (h : s.regs VR4300_REGISTER_R0 = 0) :
    ((vr4300_rf_stage env s).1).regs VR4300_REGISTER_R0 = 0 := by
  obtain ⟨h1, h2, h3, h4, h5, h6, h7, h8, h9⟩ := hE
  unfold vr4300_rf_stage
  dsimp only
  split
  · exact h
  · split
    · exact h5 _ h
    · split
      · exact h5 _ h
      · exact h

lemma ex_r0 (env : Env) (s : VR4300) (hE : EnvPreservesR0 env)
    (h : s.regs VR4300_REGISTER_R0 = 0) :
    ((vr4300_ex_stage env s).1).regs VR4300_REGISTER_R0 = 0 := by
  obtain ⟨h1, h2, h3, h4, h5, h6, h7, h8, h9⟩ := hE
  unfold vr4300_ex_stage
  dsimp only
  split
  · exact h3 _ h
  · apply h9
    by_cases hd : s.pipeline.dcwb_latch.dest = VR4300_REGISTER_R0
    · show updReg (exPinnedRegs s) s.pipeline.dcwb_latch.dest
        (s.regs s.pipeline.dcwb_latch.dest) VR4300_REGISTER_R0 = 0
      rw [hd]
      rw [updReg_self]
      exact h
    · show updReg (exPinnedRegs s) s.pipeline.dcwb_latch.dest
        (s.regs s.pipeline.dcwb_latch.dest) VR4300_REGISTER_R0 = 0
      rw [updReg_ne _ _ _ _ (fun hh => hd hh.symm)]
      exact exPinnedRegs_r0 s

lemma dc_r0 (env : Env) (s : VR4300) (hE : EnvPreservesR0 env)
    (h : s.regs VR4300_REGISTER_R0 = 0) :
    ((vr4300_dc_stage env s).1).regs VR4300_REGISTER_R0 = 0 := by
  obtain ⟨h1, h2, h3, h4, h5, h6, h7, h8, h9⟩ := hE
  unfold vr4300_dc_stage dc_after_exceptions dc_mem dc_mem_translated dc_access
  dsimp only
  split
  · exact h1 _ h
  · split
    · exact h2 _ h
    · split
      · split
        · split
          · exact h6 _ h
          · split
            · exact h
            · split
              · exact h7 _ h
              · split
                · exact h7 _ h
                · split
                  · exact h
                  · split <;> exact h
        · split
          · exact h
          · split
            · exact h7 _ h
            · split
              · exact h7 _ h
              · split
                · exact h
                · split <;> exact h
      · exact h

lemma slow_ic_r0 (env : Env) (s : VR4300) (hE : EnvPreservesR0 env)
    (h : s.regs VR4300_REGISTER_R0 = 0) :
    (vr4300_cycle_slow_ic env s).regs VR4300_REGISTER_R0 = 0 := by
  unfold vr4300_cycle_slow_ic
  dsimp only
  split
  · exact ic_r0 env s hE h
  · show updReg ((vr4300_ic_stage env s).1).regs PIPELINE_CYCLE_TYPE 0 VR4300_REGISTER_R0 = 0
    rw [updReg_ne _ _ _ _ (by decide)]
    exact ic_r0 env s hE h

lemma slow_rf_r0 (env : Env) (s : VR4300) (hE : EnvPreservesR0 env)
    (h : s.regs VR4300_REGISTER_R0 = 0) :
    (vr4300_cycle_slow_rf env s).regs VR4300_REGISTER_R0 = 0 := by
  unfold vr4300_cycle_slow_rf
  dsimp only
  split
  · split
    · exact rf_r0 env s hE h
    · exact slow_ic_r0 env _ hE (rf_r0 env s hE h)
  · exact slow_ic_r0 env _ hE h

lemma slow_ex_r0 (env : Env) (s : VR4300) (hE : EnvPreservesR0 env)
    (h : s.regs VR4300_REGISTER_R0 = 0) :
    (vr4300_cycle_slow_ex env s).regs VR4300_REGISTER_R0 = 0 := by
  unfold vr4300_cycle_slow_ex
  dsimp only
  split
  · split
    · exact ex_r0 env s hE h
    · exact slow_rf_r0 env _ hE (ex_r0 env s hE h)
  · exact slow_rf_r0 env _ hE h

lemma slow_dc_r0 (env : Env) (s : VR4300) (hE : EnvPreservesR0 env)
    (h : s.regs VR4300_REGISTER_R0 = 0) :
    (vr4300_cycle_slow_dc env s).regs VR4300_REGISTER_R0 = 0 := by
  unfold vr4300_cycle_slow_dc
  dsimp only
  split
  · split
    · exact dc_r0 env s hE h
    · exact slow_ex_r0 env _ hE (dc_r0 env s hE h)
  · exact slow_ex_r0 env _ hE h

lemma slow_wb_r0 (env : Env) (s : VR4300) (hE : EnvPreservesR0 env)
    (h : s.regs VR4300_REGISTER_R0 = 0) :
    (vr4300_cycle_slow_wb env s).regs VR4300_REGISTER_R0 = 0 := by
  unfold vr4300_cycle_slow_wb
  dsimp only
  split
  · split
    · exact wb_r0 _
    · exact slow_dc_r0 env _ hE (wb_r0 _)
  · exact slow_dc_r0 env _ hE h

lemma busywait_r0 (env : Env) (s : VR4300) (hE : EnvPreservesR0 env)
    (h : s.regs VR4300_REGISTER_R0 = 0) :
    (vr4300_cycle_busywait env s).regs VR4300_REGISTER_R0 = 0 := by
  unfold vr4300_cycle_busywait
  split
  · exact hE.2.1 s h
  · exact h

lemma lut_r0 (env : Env) (i : Nat) (s : VR4300) (hE : EnvPreservesR0 env)
    (h : s.regs VR4300_REGISTER_R0 = 0) :
    (pipeline_function_lut env i s).regs VR4300_REGISTER_R0 = 0 := by
  unfold pipeline_function_lut
  match i with
  | 0 => exact slow_wb_r0 env s hE h
  | 1 => exact slow_dc_r0 env s hE h
  | 2 => exact slow_ex_r0 env s hE h
  | 3 => exact slow_rf_r0 env s hE h
  | 4 => exact slow_ic_r0 env s hE h
  | 5 => exact busywait_r0 env s hE h
  | 6 => exact hE.2.2.2.2.2.2.2.1 s h
  | (n + 7) => exact h

lemma fastPath_r0 (env : Env) (s : VR4300) (hE : EnvPreservesR0 env) :
    (fastPath env s).regs VR4300_REGISTER_R0 = 0 := by
  unfold fastPath
  dsimp only
  split
  · exact wb_r0 _
  · split
    · exact dc_r0 env _ hE (wb_r0 _)
    · split
      · exact ex_r0 env _ hE (dc_r0 env _ hE (wb_r0 _))
      · split
        · exact rf_r0 env _ hE (ex_r0 env _ hE (dc_r0 env _ hE (wb_r0 _)))
        · exact ic_r0 env _ hE
            (rf_r0 env _ hE (ex_r0 env _ hE (dc_r0 env _ hE (wb_r0 _))))

/-- Claim C1: the architectural zero register.  (1) Every writeback
re-zeroes register zero immediately after writing the destination
slot.  (2) The EX stage's forward-read-restore sequence pins register
zero to zero between its temporary write and its read (the register
view the operands are read from maps index 0 to 0).  (3) For every
tick of `vr4300_cycle`, given that the external raisers and opcode
handlers preserve a zero register zero, a state whose zero register
reads as zero still reads as zero after the tick completes. -/
theorem c1_register_zero :
    (∀ s : VR4300, ((vr4300_wb_stage s).1).regs VR4300_REGISTER_R0 = 0) ∧
    (∀ s : VR4300, exPinnedRegs s VR4300_REGISTER_R0 = 0) ∧
    (∀ (env : Env) (s : VR4300), EnvPreservesR0 env →
      s.regs VR4300_REGISTER_R0 = 0 →
      (vr4300_cycle env s).regs VR4300_REGISTER_R0 = 0) := by
  refine ⟨wb_r0, exPinnedRegs_r0, fun env s hE h => ?_⟩
  have hc : (counterUpdate s).regs VR4300_REGISTER_R0 = 0 := by
    rw [counterUpdate_regs_ne s VR4300_REGISTER_R0 (by decide) (by decide)]
    exact h
  unfold vr4300_cycle
  dsimp only
  split
  · exact hc
  · split <;> split <;>
      first
        | exact lut_r0 env _ _ hE hc
        | exact fastPath_r0 env _ hE

/-- Claim C1 witness: a tick of the trivial environment on the
all-zero state keeps register zero at zero. -/
theorem c1_register_zero_witness :
    (vr4300_cycle trivEnv state0).regs VR4300_REGISTER_R0 = 0 :=
  c1_register_zero.2.2 trivEnv state0
    ⟨fun _ hh => hh, fun _ hh => hh, fun _ hh => hh, fun _ hh => hh, fun _ hh => hh,
     fun _ hh => hh, fun _ hh => hh, fun _ hh => hh, fun _ _ _ _ _ hh => hh⟩ rfl

lemma sub64_zero (v : Nat) (hv : v < U64) : sub64 v 0 = v := by
  unfold sub64
  rw [Nat.zero_mod, Nat.sub_zero, Nat.add_mod_right, Nat.mod_eq_of_lt hv]

lemma shiftLeft_lt_pow (x k sh n : Nat) (hx : x < 2 ^ k) (h : k + sh ≤ n) :
    x <<< sh < 2 ^ n := by
  rw [Nat.shiftLeft_eq]
  calc x * 2 ^ sh < 2 ^ k * 2 ^ sh :=
        Nat.mul_lt_mul_of_lt_of_le hx (le_refl _) (Nat.pow_pos (by norm_num))
    _ = 2 ^ (k + sh) := (pow_add 2 k sh).symm
    _ ≤ 2 ^ n := Nat.pow_le_pow_right (by norm_num) h

/-- Behaviour of the C arithmetic-shift/sign-extension chain of the
DC read path under a low mask: below the sign bits it agrees with the
logical shift. -/
lemma toU64_sar32_and (x k m : Nat) (hx : x < U32) (hkm : m + k ≤ 32) :
    toU64 (sar (toSigned32 x) k) &&& (2 ^ m - 1) = (x >>> k) &&& (2 ^ m - 1) := by
  have h2k : (0:Int) < 2 ^ k := by positivity
  have hU : (U64 : Int) = 2 ^ 64 := by norm_num [U64]
  rw [Nat.and_pow_two_sub_one_eq_mod, Nat.and_pow_two_sub_one_eq_mod,
    Nat.shiftRight_eq_div_pow]
  unfold sar toSigned32 toU64
  have hcast : Int.fdiv (x : Int) (2 ^ k) = ((x / 2 ^ k : Nat) : Int) := by
    rw [Int.ofNat_fdiv]
    push_cast
    rfl
  by_cases hlt : x < 2 ^ 31
  · rw [if_pos hlt, hcast]
    have hxd : x / 2 ^ k < U64 := by
      have h1 : x / 2 ^ k ≤ x := Nat.div_le_self x _
      have h2 : U32 < U64 := by norm_num [U32, U64]
      omega
    rw [Int.emod_eq_of_lt (by positivity) (by exact_mod_cast hxd)]
    rw [Int.toNat_ofNat]
  · rw [if_neg hlt]
    have hq : x / 2 ^ k < 2 ^ (32 - k) := by
      rw [Nat.div_lt_iff_lt_mul (Nat.pow_pos (by norm_num))]
      calc x < 2 ^ 32 := hx
        _ = 2 ^ (32 - k) * 2 ^ k := by rw [← pow_add]; congr 1; omega
    have hdiv : Int.fdiv ((x : Int) - (U32 : Int)) (2 ^ k) =
        ((x / 2 ^ k : Nat) : Int) - 2 ^ (32 - k) := by
      have hp : (2:Int) ^ (32 - k) * 2 ^ k = 2 ^ 32 := by
        rw [← pow_add]; congr 1; omega
      have hsplit : ((x : Int) - (U32 : Int)) = (x : Int) + (-(2 ^ (32 - k))) * 2 ^ k := by
        have hU32 : (U32 : Int) = 2 ^ 32 := by norm_num [U32]
        rw [hU32]
        linarith
      rw [hsplit, Int.fdiv_eq_ediv _ (le_of_lt h2k),
        Int.add_mul_ediv_right _ _ (ne_of_gt h2k)]
      have hdd : ((x:Int)) / 2 ^ k = ((x / 2 ^ k : Nat) : Int) := by
        rw [← Int.fdiv_eq_ediv _ (le_of_lt h2k)]
        exact hcast
      rw [hdd]
      ring
    rw [hdiv]
    set q : Nat := x / 2 ^ k with hqdef
    have hqlt : (q : Int) < 2 ^ (32 - k) := by exact_mod_cast hq
    have hple : (2:Int) ^ (32 - k) ≤ 2 ^ 64 := by
      apply pow_le_pow_right₀ <;> omega
    have hq0 : (0:Int) ≤ (q:Int) := by positivity
    have hmod : ((q : Int) - 2 ^ (32 - k)) % (U64 : Int) =
        (q : Int) + (2 ^ 64 - 2 ^ (32 - k)) := by
      rw [hU]
      rw [show ((q : Int) - 2 ^ (32 - k)) =
        ((q : Int) + (2 ^ 64 - 2 ^ (32 - k))) + 2 ^ 64 * (-1) by ring]
      rw [Int.add_mul_emod_self_left]
      apply Int.emod_eq_of_lt
      · linarith
      · linarith
    rw [hmod]
    have hpleN : (2:Nat) ^ (32 - k) ≤ 2 ^ 64 := Nat.pow_le_pow_right (by norm_num) (by omega)
    have htoNat : ((q : Int) + (2 ^ 64 - 2 ^ (32 - k))).toNat =
        q + (2 ^ 64 - 2 ^ (32 - k)) := by
      have hc : ((q + (2 ^ 64 - 2 ^ (32 - k)) : Nat) : Int) =
          (q : Int) + (2 ^ 64 - 2 ^ (32 - k)) := by
        rw [Nat.cast_add, Nat.cast_sub hpleN]
        push_cast
        ring
      rw [← hc, Int.toNat_ofNat]
    rw [htoNat]
    obtain ⟨t, ht⟩ : 2 ^ m ∣ 2 ^ 64 - 2 ^ (32 - k) :=
      Nat.dvd_sub' (pow_dvd_pow 2 (by omega)) (pow_dvd_pow 2 (by omega))
    rw [ht, Nat.add_mul_mod_self_left]

/-- Round trip of the 64-bit sign interpretation. -/
lemma toU64_toSigned64 (x : Nat) (hx : x < U64) : toU64 (toSigned64 x) = x := by
  unfold toU64 toSigned64
  by_cases hlt : x < 2 ^ 63
  · rw [if_pos hlt, Int.emod_eq_of_lt (by positivity) (by exact_mod_cast hx)]
    rw [Int.toNat_ofNat]
  · rw [if_neg hlt]
    rw [show ((x : Int) - (U64 : Int)) = (x : Int) + (U64 : Int) * (-1) by ring]
    rw [Int.add_mul_emod_self_left, Int.emod_eq_of_lt (by positivity) (by exact_mod_cast hx)]
    rw [Int.toNat_ofNat]

/-- Merging a value under a positioned byte mask and then extracting
the same field (the C read path's shift pipeline) recovers the value. -/
lemma merge_extract (w B k sh a : Nat) (hB : B < 2 ^ k) (hsum : sh + k + a = 32) :
    ((((w &&& not32 ((2 ^ k - 1) <<< sh)) ||| ((B <<< sh) &&& ((2 ^ k - 1) <<< sh))) <<< a)
        % U32) >>> (32 - k) &&& (2 ^ k - 1) = B := by
  apply Nat.eq_of_testBit_eq
  intro i
  simp only [Nat.testBit_and, Nat.testBit_shiftRight, U32, Nat.testBit_mod_two_pow,
    Nat.testBit_shiftLeft, Nat.testBit_or, Nat.testBit_two_pow_sub_one, not32,
    Nat.testBit_xor]
  by_cases hik : i < k
  · have h1 : 32 - k + i < 32 := by omega
    have h2 : a ≤ 32 - k + i := by omega
    have h3 : 32 - k + i - a = sh + i := by omega
    have h4 : sh ≤ sh + i := by omega
    have h5 : sh + i - sh = i := by omega
    have h6 : sh + i < 32 := by omega
    simp [hik, h1, h2, h3, h4, h5, h6]
  · have hBi : B < 2 ^ i := lt_of_lt_of_le hB (Nat.pow_le_pow_right (by norm_num) (by omega))
    simp [hik, Nat.testBit_lt_two_pow hBi]

/-- The half-swap applied on the store side composed with the
high-word-first reassembly on the load side is the identity on 64-bit
patterns. -/
lemma swap_swap (x : Nat) (hx : x < 2 ^ 64) :
    ((((((x <<< 32) % U64) ||| (x >>> 32)) % U32) <<< 32) |||
      ((((x <<< 32) % U64) ||| (x >>> 32)) >>> 32)) = x := by
  apply Nat.eq_of_testBit_eq
  intro i
  simp only [U64, U32, Nat.testBit_or, Nat.testBit_shiftLeft, Nat.testBit_mod_two_pow,
    Nat.testBit_shiftRight]
  by_cases h : i < 32
  · have ha : ¬ 32 ≤ i := by omega
    have hb : 32 + i < 64 := by omega
    have hc : 32 ≤ 32 + i := by omega
    have hd : 32 + i - 32 = i := by omega
    have he : x.testBit (32 + (32 + i)) = false :=
      Nat.testBit_lt_two_pow (lt_of_lt_of_le hx (Nat.pow_le_pow_right (by norm_num) (by omega)))
    simp [ha, hb, hc, hd, he, h]
  · by_cases h2 : i < 64
    · have ha : 32 ≤ i := by omega
      have hb : i - 32 < 32 := by omega
      have hc : ¬ 32 + i < 64 := by omega
      have hd : 32 + (i - 32) = i := by omega
      have he : ¬ 32 ≤ i - 32 := by omega
      have hf : x.testBit (32 + (32 + i)) = false :=
        Nat.testBit_lt_two_pow (lt_of_lt_of_le hx (Nat.pow_le_pow_right (by norm_num) (by omega)))
      simp [ha, hb, hc, hd, he, hf]
    · have ha : ¬ i - 32 < 32 := by omega
      have hb : ¬ 32 + i < 64 := by omega
      have hc : x.testBit (32 + (32 + i)) = false :=
        Nat.testBit_lt_two_pow (lt_of_lt_of_le hx (Nat.pow_le_pow_right (by norm_num) (by omega)))
      have hd : x.testBit i = false :=
        Nat.testBit_lt_two_pow (lt_of_lt_of_le hx (Nat.pow_le_pow_right (by norm_num) (by omega)))
      simp [ha, hb, hc, hd]

/-- Data-path round trip for sizes 1, 2 and 4: writing through the
DC-stage write path and reading back through the DC-stage read path at
the same (aligned) address recovers the byte pattern. -/
lemma dc_rw_small (lineData : Nat → Nat) (vaddr B sz : Nat)
    (hsz : sz = 1 ∨ sz = 2 ∨ sz = 4) (halign : vaddr % sz = 0) (hB : B < 2 ^ (8 * sz)) :
    dcReadData (dcWriteLine lineData (smallStoreReq vaddr B sz) vaddr)
      (smallLoadReq vaddr sz) vaddr = B := by
  unfold smallStoreReq smallLoadReq
  have h4 : vaddr % 4 < 4 := Nat.mod_lt _ (by norm_num)
  have hasz : vaddr % 4 + sz ≤ 4 := by rcases hsz with rfl | rfl | rfl <;> omega
  have hsum : 8 * (4 - sz - vaddr % 4) + 8 * sz + 8 * (vaddr % 4) = 32 := by
    rcases hsz with rfl | rfl | rfl <;> omega
  set sh := 8 * (4 - sz - vaddr % 4) with hshdef
  set a := vaddr % 4 with hadef
  have hmasklt : (2 ^ (8 * sz) - 1) <<< sh < 2 ^ 32 := by
    apply shiftLeft_lt_pow _ (8 * sz) _ _ (by omega)
    omega
  have hdatalt : B <<< sh < 2 ^ 32 := by
    apply shiftLeft_lt_pow _ (8 * sz) _ _ hB
    omega
  unfold dcWriteLine dcReadData
  have hsz4 : ¬ (sz > 4) := by rcases hsz with rfl | rfl | rfl <;> omega
  rw [if_neg hsz4]
  dsimp only
  rw [if_pos rfl]
  have hand3 : vaddr &&& 3 = a := by
    have := Nat.and_pow_two_sub_one_eq_mod vaddr 2
    norm_num at this
    rw [hadef, ← this]
  have hU32 : U32 = 2 ^ 32 := rfl
  rw [hand3]
  rw [show (2 ^ (8 * sz) - 1) <<< sh % U32 = (2 ^ (8 * sz) - 1) <<< sh from
    Nat.mod_eq_of_lt (by rw [hU32] at *; exact hmasklt)]
  rw [show B <<< sh % U32 = B <<< sh from Nat.mod_eq_of_lt (by rw [hU32] at *; exact hdatalt)]
  rw [show a <<< 3 = 8 * a from by rw [Nat.shiftLeft_eq]; ring]
  rw [show (4 - sz) <<< 3 = 32 - 8 * sz from by
    rcases hsz with rfl | rfl | rfl <;> decide]
  rw [Nat.shiftLeft_zero]
  set merged := (lineData (vaddr &&& 12) &&& not32 ((2 ^ (8 * sz) - 1) <<< sh)) |||
      (B <<< sh &&& (2 ^ (8 * sz) - 1) <<< sh) with hmdef
  rw [show (if vaddr &&& 12 = vaddr &&& 12 then merged else lineData (vaddr &&& 12)) = merged
    from if_pos rfl]
  have hx : (merged <<< (8 * a)) % U32 < U32 := Nat.mod_lt _ (by norm_num [U32])
  have hread := toU64_sar32_and ((merged <<< (8 * a)) % U32) (32 - 8 * sz) (8 * sz)
    hx (by omega)
  rw [hread]
  have hme := merge_extract (lineData (vaddr &&& 12)) B (8 * sz) sh (8 * a) hB (by omega)
  rw [U32] at hme
  rw [show ((merged <<< (8 * a)) % U32) >>> (32 - 8 * sz) &&& (2 ^ (8 * sz) - 1) = B from hme]
  apply Nat.mod_eq_of_lt
  norm_num [U64]
  calc B < 2 ^ (8 * sz) := hB
    _ ≤ 2 ^ 64 := Nat.pow_le_pow_right (by norm_num)
      (by rcases hsz with rfl | rfl | rfl <;> omega)

/-- Data-path round trip for the two-word (8-byte) paths: the store's
half swap and the load's high-word-first reassembly compose to the
identity. -/
lemma dc_rw_two (lineData : Nat → Nat) (vaddr B : Nat)
    (halign : vaddr % 8 = 0) (hB : B < 2 ^ 64) :
    dcReadData (dcWriteLine lineData (twoWordStoreReq vaddr B) vaddr)
      (twoWordLoadReq vaddr) vaddr = B := by
  unfold twoWordStoreReq twoWordLoadReq
  have hU64 : U64 = 2 ^ 64 := rfl
  have hBmod : B % U64 = B := Nat.mod_eq_of_lt (by rw [hU64]; exact hB)
  have hdqm : (2 ^ 64 - 1) % U64 = 2 ^ 64 - 1 := Nat.mod_eq_of_lt (by rw [hU64]; omega)
  unfold dcWriteLine dcReadData
  rw [if_pos (by norm_num : (8:Nat) > 4)]
  dsimp only
  rw [if_neg (by simp : ¬ (true = false))]
  rw [hBmod, hdqm]
  rw [show not64 (2 ^ 64 - 1) = 0 from by
    unfold not64
    rw [hU64]
    exact Nat.xor_self _]
  rw [Nat.and_zero, Nat.zero_or]
  set sw := ((B <<< 32) % U64) ||| (B >>> 32) with hswdef
  have hswlt : sw < 2 ^ 64 := by
    apply Nat.or_lt_two_pow
    · rw [← hU64]
      exact Nat.mod_lt _ (by norm_num [U64])
    · have hle : B >>> 32 ≤ B := by
        rw [Nat.shiftRight_eq_div_pow]
        exact Nat.div_le_self _ _
      omega
  rw [show sw &&& (2 ^ 64 - 1) = sw from by
    rw [Nat.and_pow_two_sub_one_eq_mod]
    exact Nat.mod_eq_of_lt hswlt]
  rw [show vaddr &&& 7 = 0 from by
    have := Nat.and_pow_two_sub_one_eq_mod vaddr 3
    norm_num at this
    rw [this, halign]]
  rw [if_pos rfl]
  rw [if_neg (by omega : ¬ (vaddr &&& 8) + 4 = vaddr &&& 8)]
  rw [if_pos rfl]
  rw [show (0:Nat) <<< 3 = 0 from rfl, Nat.shiftLeft_zero]
  rw [show ((((sw % U32) <<< 32) ||| (sw >>> 32)) : Nat) = B from by
    rw [hswdef]
    exact swap_swap B hB]
  rw [Nat.shiftLeft_zero, hBmod]
  rw [show sar (toSigned64 B) 0 = toSigned64 B from by
    unfold sar
    rw [pow_zero, Int.fdiv_one]]
  rw [toU64_toSigned64 B (by rw [hU64]; exact hB)]
  rw [Nat.and_pow_two_sub_one_eq_mod, Nat.mod_eq_of_lt hB,
    Nat.mod_eq_of_lt (by rw [hU64]; exact hB)]

lemma dcCopy_exdc (s : VR4300) :
    (dcCopy s).pipeline.exdc_latch = s.pipeline.exdc_latch := rfl

/-- DC-stage walk under the round-trip hypotheses: no exception fires,
the identity test segment needs no re-lookup or TLB work, and the
probe hits, so the stage reduces to the cache access. -/
lemma dc_stage_hit_simple (env : Env) (s : VR4300) (idx vaddr : Nat)
    (hcr : s.signals &&& VR4300_SIGNAL_COLDRESET = 0)
    (hint : interruptPending s = false)
    (hseg : s.pipeline.exdc_latch.segment = dcTestSeg)
    (hva : vaddr < U32)
    (hvaddr : s.pipeline.exdc_latch.request.vaddr = vaddr)
    (hreq : s.pipeline.exdc_latch.request.reqType ≠ busRequestNone)
    (hprobe : env.dcache_probe vaddr vaddr = some idx) :
    vr4300_dc_stage env s = dc_access (dcCopy s) idx vaddr := by
  have hva64 : vaddr < U64 := lt_trans hva (by norm_num [U32, U64])
  have hsub : sub64 vaddr 0 = vaddr := sub64_zero vaddr hva64
  unfold vr4300_dc_stage
  rw [if_neg (by simp [hcr]), if_neg (by simp [hint])]
  unfold dc_after_exceptions
  rw [if_pos (by rw [dcCopy_exdc]; exact hreq)]
  unfold dc_mem
  rw [dcCopy_exdc, hvaddr, hseg]
  rw [if_neg (by
    show ¬ (dcTestSeg.length ≤ sub64 vaddr dcTestSeg.start)
    unfold dcTestSeg
    dsimp only
    rw [hsub]
    omega)]
  unfold dc_mem_translated
  rw [dcCopy_exdc, hvaddr]
  unfold dcTestSeg
  dsimp only
  rw [hsub, Nat.mod_eq_of_lt hva]
  rw [if_neg (show ¬ (false = true) by decide)]
  dsimp only
  rw [if_neg (show ¬ (true = false) by decide)]
  rw [hprobe]

/-- Cache-access equation for a read hit. -/
lemma dc_access_read (s2 : VR4300) (idx paddr : Nat)
    (h : s2.pipeline.exdc_latch.request.reqType = busRequestRead) :
    dc_access s2 idx paddr =
      ({ s2 with pipeline.dcwb_latch.result :=
          s2.pipeline.dcwb_latch.result |||
            dcReadData (s2.dcache idx).data s2.pipeline.exdc_latch.request paddr }, false) := by
  unfold dc_access
  rw [if_pos h]

/-- Cache-access equation for a write hit: merge into the line and
mark it dirty. -/
lemma dc_access_write (s2 : VR4300) (idx paddr : Nat)
    (h : s2.pipeline.exdc_latch.request.reqType = busRequestWrite) :
    dc_access s2 idx paddr =
      ({ s2 with dcache := fun j => if j = idx then
          { data := dcWriteLine (s2.dcache idx).data s2.pipeline.exdc_latch.request paddr,
            dirty := true }
        else s2.dcache j }, false) := by
  unfold dc_access
  rw [if_neg (by rw [h]; decide), if_pos h]

lemma interruptPending_congr (s t : VR4300) (h : s.regs = t.regs) :
    interruptPending s = interruptPending t := by
  unfold interruptPending
  rw [h]

/-- Claim C5: for every size in {1, 2, 4} (part one) and for the
two-word 8-byte paths (part two), a data-cache store of byte pattern
`B` at an aligned address followed by a data-cache load of the same
size at the same address yields `B`: both DC-stage ticks complete
without abort and the loaded DC/WB result is exactly `B`.  The 8-byte
case is the composition of the two-word store path (with its
documented 32-bit-half swap) and the two-word load path (high word
first), which is the identity on 8-byte values. -/
theorem c5_store_load_roundtrip :
    (∀ (env : Env) (s : VR4300) (idx vaddr B sz : Nat),
      s.signals &&& VR4300_SIGNAL_COLDRESET = 0 →
      interruptPending s = false →
      s.pipeline.exdc_latch.segment = dcTestSeg →
      vaddr < U32 →
      env.dcache_probe vaddr vaddr = some idx →
      (sz = 1 ∨ sz = 2 ∨ sz = 4) →
      vaddr % sz = 0 →
      B < 2 ^ (8 * sz) →
      (vr4300_dc_stage env (storeTick s (smallStoreReq vaddr B sz))).2 = false ∧
      (vr4300_dc_stage env
        (loadTick env s (smallStoreReq vaddr B sz) (smallLoadReq vaddr sz))).2 = false ∧
      ((vr4300_dc_stage env
        (loadTick env s (smallStoreReq vaddr B sz)
          (smallLoadReq vaddr sz))).1).pipeline.dcwb_latch.result = B) ∧
    (∀ (env : Env) (s : VR4300) (idx vaddr B : Nat),
      s.signals &&& VR4300_SIGNAL_COLDRESET = 0 →
      interruptPending s = false →
      s.pipeline.exdc_latch.segment = dcTestSeg →
      vaddr < U32 →
      env.dcache_probe vaddr vaddr = some idx →
      vaddr % 8 = 0 →
      B < 2 ^ 64 →
      (vr4300_dc_stage env (storeTick s (twoWordStoreReq vaddr B))).2 = false ∧
      (vr4300_dc_stage env
        (loadTick env s (twoWordStoreReq vaddr B) (twoWordLoadReq vaddr))).2 = false ∧
      ((vr4300_dc_stage env
        (loadTick env s (twoWordStoreReq vaddr B)
          (twoWordLoadReq vaddr))).1).pipeline.dcwb_latch.result = B) := by
  constructor
  · intro env s idx vaddr B sz hcr hint hseg hva hprobe hsz halign hB
    set wreq := smallStoreReq vaddr B sz with hwreq
    set rreq := smallLoadReq vaddr sz with hrreq
    set sW := storeTick s wreq with hsW
    have hw : vr4300_dc_stage env sW = dc_access (dcCopy sW) idx vaddr :=
      dc_stage_hit_simple env sW idx vaddr hcr hint hseg hva rfl
        (show busRequestWrite ≠ busRequestNone by decide) hprobe
    have hsig : (loadTick env s wreq rreq).signals = s.signals := by
      unfold loadTick
      rw [← hsW, hw, dc_access_write _ _ _ rfl]
      rfl
    have hregs : (loadTick env s wreq rreq).regs = s.regs := by
      unfold loadTick
      rw [← hsW, hw, dc_access_write _ _ _ rfl]
      rfl
    have hsegL : (loadTick env s wreq rreq).pipeline.exdc_latch.segment = dcTestSeg := by
      unfold loadTick
      rw [← hsW, hw, dc_access_write _ _ _ rfl]
      exact hseg
    have hdc : (loadTick env s wreq rreq).dcache idx =
        { data := dcWriteLine ((s.dcache idx)).data wreq vaddr, dirty := true } := by
      unfold loadTick
      rw [← hsW, hw, dc_access_write _ _ _ rfl]
      dsimp only
      rw [if_pos rfl]
      rfl
    have hw2 : vr4300_dc_stage env (loadTick env s wreq rreq) =
        dc_access (dcCopy (loadTick env s wreq rreq)) idx vaddr := by
      apply dc_stage_hit_simple env _ idx vaddr _ _ hsegL hva rfl
        (show busRequestRead ≠ busRequestNone by decide) hprobe
      · rw [hsig]
        exact hcr
      · rw [interruptPending_congr _ s hregs]
        exact hint
    refine ⟨?_, ?_, ?_⟩
    · rw [hw, dc_access_write _ _ _ rfl]
    · rw [hw2, dc_access_read _ _ _ rfl]
    · rw [hw2, dc_access_read _ _ _ rfl]
      dsimp only
      have hdc2 : (dcCopy (loadTick env s wreq rreq)).dcache idx =
          { data := dcWriteLine ((s.dcache idx)).data wreq vaddr, dirty := true } := hdc
      rw [hdc2]
      show (0 : Nat) ||| dcReadData (dcWriteLine (s.dcache idx).data wreq vaddr) rreq vaddr = B
      rw [Nat.zero_or]
      exact dc_rw_small (s.dcache idx).data vaddr B sz hsz halign hB
  · intro env s idx vaddr B hcr hint hseg hva hprobe halign hB
    set wreq := twoWordStoreReq vaddr B with hwreq
    set rreq := twoWordLoadReq vaddr with hrreq
    set sW := storeTick s wreq with hsW
    have hw : vr4300_dc_stage env sW = dc_access (dcCopy sW) idx vaddr :=
      dc_stage_hit_simple env sW idx vaddr hcr hint hseg hva rfl
        (show busRequestWrite ≠ busRequestNone by decide) hprobe
    have hsig : (loadTick env s wreq rreq).signals = s.signals := by
      unfold loadTick
      rw [← hsW, hw, dc_access_write _ _ _ rfl]
      rfl
    have hregs : (loadTick env s wreq rreq).regs = s.regs := by
      unfold loadTick
      rw [← hsW, hw, dc_access_write _ _ _ rfl]
      rfl
    have hsegL : (loadTick env s wreq rreq).pipeline.exdc_latch.segment = dcTestSeg := by
      unfold loadTick
      rw [← hsW, hw, dc_access_write _ _ _ rfl]
      exact hseg
    have hdc : (loadTick env s wreq rreq).dcache idx =
        { data := dcWriteLine ((s.dcache idx)).data wreq vaddr, dirty := true } := by
      unfold loadTick
      rw [← hsW, hw, dc_access_write _ _ _ rfl]
      dsimp only
      rw [if_pos rfl]
      rfl
    have hw2 : vr4300_dc_stage env (loadTick env s wreq rreq) =
        dc_access (dcCopy (loadTick env s wreq rreq)) idx vaddr := by
      apply dc_stage_hit_simple env _ idx vaddr _ _ hsegL hva rfl
        (show busRequestRead ≠ busRequestNone by decide) hprobe
      · rw [hsig]
        exact hcr
      · rw [interruptPending_congr _ s hregs]
        exact hint
    refine ⟨?_, ?_, ?_⟩
    · rw [hw, dc_access_write _ _ _ rfl]
    · rw [hw2, dc_access_read _ _ _ rfl]
    · rw [hw2, dc_access_read _ _ _ rfl]
      dsimp only
      have hdc2 : (dcCopy (loadTick env s wreq rreq)).dcache idx =
          { data := dcWriteLine ((s.dcache idx)).data wreq vaddr, dirty := true } := hdc
      rw [hdc2]
      show (0 : Nat) ||| dcReadData (dcWriteLine (s.dcache idx).data wreq vaddr) rreq vaddr = B
      rw [Nat.zero_or]
      exact dc_rw_two (s.dcache idx).data vaddr B halign hB

/-- Claim C5 witness: a byte store of 0xAB at address 5 reads back as
0xAB, and a two-word store of 0x0123456789ABCDEF at address 8 reads
back identically. -/
theorem c5_store_load_roundtrip_witness :
    ((vr4300_dc_stage envMem
      (loadTick envMem stateMem (smallStoreReq 5 171 1)
        (smallLoadReq 5 1))).1).pipeline.dcwb_latch.result = 171 ∧
    ((vr4300_dc_stage envMem
      (loadTick envMem stateMem (twoWordStoreReq 8 81985529216486895)
        (twoWordLoadReq 8))).1).pipeline.dcwb_latch.result = 81985529216486895 :=
  ⟨(c5_store_load_roundtrip.1 envMem stateMem 0 5 171 1 (by decide) (by decide) rfl
      (by decide) rfl (Or.inl rfl) (by decide) (by decide)).2.2,
   (c5_store_load_roundtrip.2 envMem stateMem 0 8 81985529216486895 (by decide) (by decide)
      rfl (by decide) rfl (by decide) (by decide)).2.2⟩

end CEN64
